import Mathlib

/-!
Verification of the Green-Diods-Dental-Clinic repository: a shallow
embedding, in Lean 4, of the date/time parsers, the phone-number
utilities, the appointment database executors, the pooled database
cursor helper, and the call-bridge tool dispatcher / barge-in handler,
together with theorems settling the specification claims.

Python strings are modelled as Lean `String` (with character-level work
on `List Char`); Python dicts and JSON values as the inductive `PyVal`;
Python exceptions as `Except PyErr`; the PostgreSQL `appointments`
table as an in-memory list of rows.  Machine clock readings are passed
in explicitly (milliseconds as `Nat`); `date.today()` is passed in as
an explicit `Today` value carrying the date and its weekday.
-/

/-! ## Basic Python-string helpers -/

/-- Python whitespace characters (the set stripped by `str.strip`). -/
def pyIsSpace (c : Char) : Bool :=
  c = ' ' || c = '\t' || c = '\n' || c = '\x0d' || c = '\x0b' || c = '\x0c'

/-- ASCII lower-casing, as applied by `str.lower` on the inputs at hand. -/
def pyLowerChar (c : Char) : Char := c.toLower

/-- `needle.isPrefixOf hay` on raw character lists. -/
def listPrefixOf : List Char → List Char → Bool
  | [], _ => true
  | _ :: _, [] => false
  | a :: as, b :: bs => a = b && listPrefixOf as bs

/-- Python `needle in hay` substring test. -/
def strContainsL (needle : List Char) : List Char → Bool
  | [] => listPrefixOf needle []
  | c :: t => listPrefixOf needle (c :: t) || strContainsL needle t

/-- Substring test on `String`s: Python `needle in hay`. -/
def strContainsS (hay needle : String) : Bool :=
  strContainsL needle.data hay.data

/-- `str.strip()`: drop leading and trailing whitespace. -/
def pyStrip (l : List Char) : List Char :=
  ((l.dropWhile pyIsSpace).reverse.dropWhile pyIsSpace).reverse

/-- `s.lower().strip()` as one step, on `String`. -/
def pyLowerStrip (s : String) : String :=
  ⟨pyStrip (s.data.map pyLowerChar)⟩

/-- Digit character for a value below 10 (as printed by `%d`). -/
def digChar (n : Nat) : Char := Nat.digitChar (n % 10)

/--
Python `f"\x7bn:02d\x7d"` for the numbers reachable in this code base
(all below 1000): zero-pad to at least two digits, never truncate.
-/
def pyPad2 (n : Nat) : List Char :=
  if n < 10 then ['0', digChar n]
  else if n < 100 then [digChar (n / 10), digChar n]
  else [digChar (n / 100), digChar (n / 10), digChar n]

/-- Fixed-width four-digit field, as produced by `strftime("%Y")`
for the years representable by a Python `datetime.date` (1..9999). -/
def pad4 (n : Nat) : List Char :=
  [digChar (n / 1000), digChar (n / 100), digChar (n / 10), digChar n]

/-! ## Gregorian calendar (Python `datetime.date` + `timedelta`) -/

structure PyDate where
  year : Nat
  month : Nat
  day : Nat
deriving DecidableEq, Repr

def isLeap (y : Nat) : Bool :=
  (y % 4 = 0 && y % 100 ≠ 0) || y % 400 = 0

def daysInMonth (y m : Nat) : Nat :=
  if m = 2 then (if isLeap y then 29 else 28)
  else if m = 4 || m = 6 || m = 9 || m = 11 then 30
  else 31

/-- `d + timedelta(days=1)`. -/
def nextDay (d : PyDate) : PyDate :=
  if d.day < daysInMonth d.year d.month then ⟨d.year, d.month, d.day + 1⟩
  else if d.month < 12 then ⟨d.year, d.month + 1, 1⟩
  else ⟨d.year + 1, 1, 1⟩

/-- `d + timedelta(days=n)`. -/
def addDays (d : PyDate) : Nat → PyDate
  | 0 => d
  | n + 1 => addDays (nextDay d) n

/-- `strftime("%Y-%m-%d")`. -/
def fmtYMD (d : PyDate) : String :=
  ⟨pad4 d.year ++ '-' :: pyPad2 d.month ++ '-' :: pyPad2 d.day⟩

/-- `f"\x7bh:02d\x7d:\x7bm:02d\x7d"`. -/
def fmtHM (h m : Nat) : String :=
  ⟨pyPad2 h ++ ':' :: pyPad2 m⟩

/-- Canonical `YYYY-MM-DD` shape: ten characters, digits with dashes
at positions 4 and 7. -/
def isCanonicalYMD (s : String) : Bool :=
  match s.data with
  | [y1, y2, y3, y4, d1, m1, m2, d2, a1, a2] =>
      y1.isDigit && y2.isDigit && y3.isDigit && y4.isDigit &&
      d1 = '-' && m1.isDigit && m2.isDigit && d2 = '-' &&
      a1.isDigit && a2.isDigit
  | _ => false

/-- Canonical zero-padded `HH:MM` shape: five characters, two digits,
a colon, two digits. -/
def isCanonicalHM (s : String) : Bool :=
  match s.data with
  | [h1, h2, c, m1, m2] =>
      h1.isDigit && h2.isDigit && c = ':' && m1.isDigit && m2.isDigit
  | _ => false

/-- `date.today()` as seen by the code: the calendar date together with
`date.weekday()` (0 = Monday .. 6 = Sunday). -/
structure Today where
  date : PyDate
  weekday : Fin 7

/-- Numeric value of a digit character. -/
def digitVal (c : Char) : Nat := c.toNat - 48

/-- Greedy `\d{1,2}`: one or two digits. -/
def take2Digits : List Char → Option (Nat × List Char)
  | [] => none
  | c :: t =>
    if c.isDigit then
      match t with
      | c2 :: t2 =>
          if c2.isDigit then some (digitVal c * 10 + digitVal c2, t2)
          else some (digitVal c, t)
      | [] => some (digitVal c, [])
    else none

/-! ## appointment/executor.py — date / time parsers -/

namespace AppointmentExecutor

/-- `strptime` field `%Y`: exactly four digits. -/
def take4Digits : List Char → Option (Nat × List Char)
  | c1 :: c2 :: c3 :: c4 :: t =>
      if c1.isDigit && c2.isDigit && c3.isDigit && c4.isDigit then
        some (((digitVal c1 * 10 + digitVal c2) * 10 + digitVal c3) * 10 + digitVal c4, t)
      else none
  | _ => none

/-- `strptime` numeric field accepting `1..hi` with optional leading zero
(`%m` with `hi = 12`, `%d` with `hi = 31`): two digits when they form a
value in range, else a single digit `1..9`. -/
def takeRangedNum (hi : Nat) : List Char → Option (Nat × List Char)
  | [] => none
  | c :: t =>
    if c.isDigit then
      match t with
      | c2 :: t2 =>
          let v := digitVal c * 10 + digitVal c2
          if c2.isDigit && 1 ≤ v && v ≤ hi then some (v, t2)
          else if 1 ≤ digitVal c && digitVal c ≤ 9 then some (digitVal c, t)
          else none
      | [] =>
          if 1 ≤ digitVal c && digitVal c ≤ 9 then some (digitVal c, []) else none
    else none

/-- `strptime` literal space: one or more whitespace characters. -/
def spaces1 : List Char → Option (List Char)
  | [] => none
  | c :: t => if pyIsSpace c then some (t.dropWhile pyIsSpace) else none

/-- Expect one literal character. -/
def expectChar (ch : Char) : List Char → Option (List Char)
  | [] => none
  | c :: t => if c = ch then some t else none

def monthFullNames : List (String × Nat) :=
  [("january", 1), ("february", 2), ("march", 3), ("april", 4),
   ("may", 5), ("june", 6), ("july", 7), ("august", 8),
   ("september", 9), ("october", 10), ("november", 11), ("december", 12)]

def monthAbbrNames : List (String × Nat) :=
  [("jan", 1), ("feb", 2), ("mar", 3), ("apr", 4), ("may", 5), ("jun", 6),
   ("jul", 7), ("aug", 8), ("sep", 9), ("oct", 10), ("nov", 11), ("dec", 12)]

/-- `strptime` month-name field (`%B` / `%b`), on lower-cased input. -/
def matchMonthName (names : List (String × Nat)) (l : List Char) : Option (Nat × List Char) :=
  match names.find? (fun p => listPrefixOf p.1.data l) with
  | some p => some (p.2, l.drop p.1.data.length)
  | none => none

/-- `datetime.strptime(s, "%Y-%m-%d")`. -/
def parseYMD (l : List Char) : Option PyDate := do
  let (y, l1) ← take4Digits l
  let l2 ← expectChar '-' l1
  let (m, l3) ← takeRangedNum 12 l2
  let l4 ← expectChar '-' l3
  let (d, l5) ← takeRangedNum 31 l4
  if l5 = [] && 1 ≤ y && d ≤ daysInMonth y m then some ⟨y, m, d⟩ else none

/-- `datetime.strptime(s, "%d<sep>%m<sep>%Y")`. -/
def parseDMY (sep : Char) (l : List Char) : Option PyDate := do
  let (d, l1) ← takeRangedNum 31 l
  let l2 ← expectChar sep l1
  let (m, l3) ← takeRangedNum 12 l2
  let l4 ← expectChar sep l3
  let (y, l5) ← take4Digits l4
  if l5 = [] && 1 ≤ y && d ≤ daysInMonth y m then some ⟨y, m, d⟩ else none

/-- `datetime.strptime(s, "%d %B %Y")` (or `%b` with abbreviated names). -/
def parseDBY (names : List (String × Nat)) (l : List Char) : Option PyDate := do
  let (d, l1) ← takeRangedNum 31 l
  let l2 ← spaces1 l1
  let (m, l3) ← matchMonthName names l2
  let l4 ← spaces1 l3
  let (y, l5) ← take4Digits l4
  if l5 = [] && 1 ≤ y && d ≤ daysInMonth y m then some ⟨y, m, d⟩ else none

/-- The manual-format loop of `parse_date_str`: the five `strptime`
formats tried in order (on the stripped input; `strptime` matches month
names case-insensitively, modelled by lower-casing first). -/
def tryFormats (l : List Char) : Option PyDate :=
  parseYMD l <|> parseDMY '/' l <|> parseDMY '-' l <|>
  parseDBY monthFullNames l <|> parseDBY monthAbbrNames l

def dayMap : List (String × Nat) :=
  [("monday", 0), ("tuesday", 1), ("wednesday", 2),
   ("thursday", 3), ("friday", 4), ("saturday", 5), ("sunday", 6)]

/-- The `for day_name, day_num in day_map.items()` scan: first weekday
name contained in `s` (insertion order, as Python dicts preserve it). -/
def findDayName (s : String) : Option Nat :=
  (dayMap.find? (fun p => strContainsS s p.1)).map (fun p => p.2)

/-- `(day_num - today.weekday()) % 7`, bumped to 7 when 0. -/
def weekdayDiff (dn wd : Nat) : Nat :=
  let diff := (7 + dn - wd) % 7
  if diff = 0 then 7 else diff

/--
The date produced by a successful recognition branch of
`parse_date_str` (executor.py lines 36-67); `none` when every branch
falls through.  `dateutil` is the third-party `dateutil.parser.parse`
call, modelled as an external oracle returning the parsed date or
raising (`none`).
-/
def dateCore (today : Today) (dateutil : String → Option PyDate) (date_str : String) :
    Option PyDate :=
  let s := pyLowerStrip date_str
  if strContainsS s "today" then some today.date
  else if strContainsS s "tomorrow" then some (addDays today.date 1)
  else
    match findDayName s with
    | some dn => some (addDays today.date (weekdayDiff dn today.weekday.val))
    | none =>
      match dateutil date_str with
      | some d => some d
      | none => tryFormats (pyStrip (date_str.data.map pyLowerChar))

/-- `parse_date_str` (executor.py lines 26-69): `None` for empty input,
a `strftime("%Y-%m-%d")` string when a branch recognizes the input,
otherwise the input returned unchanged. -/
def parse_date_str (today : Today) (dateutil : String → Option PyDate) (date_str : String) :
    Option String :=
  if date_str = "" then none
  else
    match dateCore today dateutil date_str with
    | some d => some (fmtYMD d)
    | none => some date_str

/-- Whether some recognition branch of `parse_date_str` fires. -/
def dateRecognized (today : Today) (dateutil : String → Option PyDate) (date_str : String) :
    Bool :=
  date_str ≠ "" && (dateCore today dateutil date_str).isSome

inductive AmPm where
  | am
  | pm
deriving DecidableEq, Repr

/-- `re.match(r'^(\d{1,2}):(\d{2})$', s)`. -/
def match24 (l : List Char) : Option (Nat × Nat) := do
  let (h, l1) ← take2Digits l
  match l1 with
  | a :: c1 :: c2 :: rest =>
      if a = ':' && c1.isDigit && c2.isDigit && rest = [] then
        some (h, digitVal c1 * 10 + digitVal c2)
      else none
  | _ => none

/-- `re.match(r'^(\d{1,2})(?::(\d{2}))?\s*(am|pm)$', s)`. -/
def match12 (l : List Char) : Option (Nat × Nat × AmPm) := do
  let (h, l1) ← take2Digits l
  let (m, l2) :=
    match l1 with
    | a :: c1 :: c2 :: rest =>
        if a = ':' && c1.isDigit && c2.isDigit then (digitVal c1 * 10 + digitVal c2, rest)
        else (0, l1)
    | _ => (0, l1)
  let l3 := l2.dropWhile pyIsSpace
  if l3 = ['a', 'm'] then some (h, m, AmPm.am)
  else if l3 = ['p', 'm'] then some (h, m, AmPm.pm)
  else none

/-- The string produced by a successful recognition branch of
`parse_time_str` (executor.py lines 80-103), on the lowered stripped
input; `none` when every branch falls through. -/
def timeCore (s : String) : Option String :=
  match match24 s.data with
  | some (h, m) => some (fmtHM h m)
  | none =>
    match match12 s.data with
    | some (h, m, ap) =>
        let h2 :=
          if ap = AmPm.pm && h ≠ 12 then h + 12
          else if ap = AmPm.am && h = 12 then 0
          else h
        some (fmtHM h2 m)
    | none =>
        if strContainsS s "morning" then some "09:00"
        else if strContainsS s "afternoon" then some "14:00"
        else if strContainsS s "evening" then some "17:00"
        else none

/-- `parse_time_str` (executor.py lines 72-105). -/
def parse_time_str (time_str : String) : Option String :=
  if time_str = "" then none
  else
    match timeCore (pyLowerStrip time_str) with
    | some out => some out
    | none => some time_str

/-- Whether some recognition branch of `parse_time_str` fires. -/
def timeRecognized (time_str : String) : Bool :=
  time_str ≠ "" && (timeCore (pyLowerStrip time_str)).isSome

end AppointmentExecutor

/-! ## Python values, exceptions, and the appointments table -/

/-- A Python/JSON value (tool results are dicts of these). -/
inductive PyVal where
  | str (s : String)
  | int (n : Int)
  | bool (b : Bool)
  | null
  | arr (xs : List PyVal)
  | dict (fields : List (String × PyVal))

/-- A raised Python exception, reduced to its `str(e)` message. -/
def PyErr : Type := String

instance : DecidableEq PyErr := inferInstanceAs (DecidableEq String)

/-- The generic conversion of a caught exception:
`\x7b"status": "ERROR", "message": str(e)\x7d`. -/
def errDict (e : PyErr) : PyVal :=
  PyVal.dict [("status", PyVal.str "ERROR"), ("message", PyVal.str e)]

/-- `d[k]` on a dict: the value, or a raised `KeyError`. -/
def pyGet (v : PyVal) (k : String) : Except PyErr PyVal :=
  match v with
  | PyVal.dict fields =>
      match fields.find? (fun p => p.1 = k) with
      | some p => Except.ok p.2
      | none => Except.error ("KeyError: " ++ k)
  | _ => Except.error "TypeError: value is not subscriptable"

/-- `d.get(k, default)` on a dict (non-dicts raise `AttributeError`). -/
def pyGetD (v : PyVal) (k : String) (default : PyVal) : Except PyErr PyVal :=
  match v with
  | PyVal.dict fields =>
      match fields.find? (fun p => p.1 = k) with
      | some p => Except.ok p.2
      | none => Except.ok default
  | _ => Except.error "AttributeError: get"

/-- Python `v == "lit"` for a string literal. -/
def pyEqStr (v : PyVal) (lit : String) : Bool :=
  match v with
  | PyVal.str s => s = lit
  | _ => false

/-- Python truthiness. -/
def pyTruthy (v : PyVal) : Bool :=
  match v with
  | PyVal.str s => s ≠ ""
  | PyVal.int n => n ≠ 0
  | PyVal.bool b => b
  | PyVal.null => false
  | PyVal.arr xs => !xs.isEmpty
  | PyVal.dict fields => !fields.isEmpty

/-- Truthiness of an optional value (`None` ↦ falsy). -/
def pyTruthyOpt (v : Option PyVal) : Bool :=
  match v with
  | none => false
  | some w => pyTruthy w

/-- `str(v)` for the scalar values that reach f-strings here. -/
def pyStrOf (v : PyVal) : String :=
  match v with
  | PyVal.str s => s
  | PyVal.int n => toString n
  | PyVal.bool b => if b then "True" else "False"
  | PyVal.null => "None"
  | PyVal.arr _ => "<list>"
  | PyVal.dict _ => "<dict>"

/-- One row of the `appointments` table (db/create_tables.py lines
52-67).  `preferred_date` / `preferred_time` are `Option` because the
executor inserts the parser output, which is `None` for empty input
(the columns are `NOT NULL`, so such an insert raises). -/
structure AppointmentRow where
  appointment_id : Nat
  patient_id : Int
  first_name : String
  last_name : String
  date_of_birth : String
  contact_number : String
  preferred_treatment : String
  preferred_date : Option String
  preferred_time : Option String
  preferred_dentist : String
  status : String
deriving DecidableEq, Repr

/-- The `appointments` table plus the `SERIAL` id sequence. -/
structure DbState where
  rows : List AppointmentRow
  nextId : Nat
deriving DecidableEq, Repr

/-! ## db/db_connection.py — pool constants and `db_cursor` -/

namespace DbConnection

/-- `SimpleConnectionPool(1, 10, ...)` (db_connection.py lines 60-66):
the min/max connection counts the pool is created with. -/
def get_pool_config : Nat × Nat := (1, 10)

/-- A pooled psycopg2 connection: the last committed database state and
the pending (in-transaction) state the cursor operates on. -/
structure PgConn where
  committed : DbState
  pending : DbState

/-- `conn.commit()`. -/
def commitConn (c : PgConn) : PgConn := { c with committed := c.pending }

/-- `conn.rollback()`. -/
def rollbackConn (c : PgConn) : PgConn := { c with pending := c.committed }

/-- Observable outcome of one `with db_cursor() as (cursor, conn):`
block. -/
structure CursorRun (α : Type) where
  outcome : Except PyErr α
  finalDb : DbState
  committed : Bool
  rolledBack : Bool
  cursorClosed : Bool
  connReturned : Bool

/--
`db_cursor` (db_connection.py lines 94-114).  `acquire` models
`get_pool().getconn()` / `conn.cursor()` (which can themselves raise,
before a cursor exists); `body` is the `yield`-ed block, acting on the
in-transaction state and either returning a value or raising.  On clean
exit the transaction is committed; on a raise it is rolled back and the
exception re-raised; the `finally` clause closes the cursor and returns
the connection to the pool.
-/
def db_cursor {α : Type} (acquire : Except PyErr Unit)
    (body : DbState → Except PyErr (DbState × α)) (db : DbState) : CursorRun α :=
  match acquire with
  | Except.error e => ⟨Except.error e, db, false, false, false, false⟩
  | Except.ok _ =>
    let conn : PgConn := ⟨db, db⟩
    match body conn.pending with
    | Except.ok (db2, a) =>
        let conn2 := commitConn { conn with pending := db2 }
        ⟨Except.ok a, conn2.committed, true, false, true, true⟩
    | Except.error e =>
        let conn2 := rollbackConn conn
        ⟨Except.error e, conn2.committed, false, true, true, true⟩

end DbConnection

/-! ## appointment/executor.py — database executors -/

namespace AppointmentExecutor

/-- Falsiness test `not parsed_date` on a parser result
(`None` or `""` are falsy). -/
def strFalsy (v : Option String) : Bool :=
  match v with
  | none => true
  | some s => s = ""

/-- The `WHERE` clause of the availability `COUNT(*)` query
(executor.py lines 130-136): case-insensitive `LIKE %dentist%` on
`preferred_dentist`, exact date/time match, status not `cancelled`. -/
def slotMatches (dentist_name parsed_date parsed_time : String) (r : AppointmentRow) : Bool :=
  strContainsL (dentist_name.data.map pyLowerChar) (r.preferred_dentist.data.map pyLowerChar)
    && r.preferred_date = some parsed_date
    && r.preferred_time = some parsed_time
    && r.status ≠ "cancelled"

def invalidDict : PyVal :=
  PyVal.dict [("status", PyVal.str "INVALID"),
              ("message", PyVal.str "Could not understand the date or time.")]

/--
`check_dentist_availability` (executor.py lines 112-159).  `fail`
injects an exception raised during the database work (the function
catches every exception and returns an `ERROR` dict).  The query does
not modify the database.
-/
def check_dentist_availability (fail : Option PyErr) (today : Today)
    (dateutil : String → Option PyDate) (db : DbState)
    (date_str time_str dentist_name : String) : PyVal :=
  match fail with
  | some e => errDict e
  | none =>
    let parsed_date := parse_date_str today dateutil date_str
    let parsed_time := parse_time_str time_str
    if strFalsy parsed_date || strFalsy parsed_time then invalidDict
    else
      let pd := parsed_date.getD ""
      let pt := parsed_time.getD ""
      let count := db.rows.countP (fun r => slotMatches dentist_name pd pt r)
      if count > 0 then
        PyVal.dict [("status", PyVal.str "NOT_AVAILABLE"),
                    ("dentist", PyVal.str dentist_name),
                    ("date", PyVal.str pd),
                    ("time", PyVal.str pt),
                    ("message", PyVal.str (dentist_name ++ " already has an appointment at that time."))]
      else
        PyVal.dict [("status", PyVal.str "AVAILABLE"),
                    ("dentist", PyVal.str dentist_name),
                    ("date", PyVal.str pd),
                    ("time", PyVal.str pt)]

/--
`book_appointment` (executor.py lines 232-289): parse date/time, then
`INSERT` a `'confirmed'` row unconditionally (no availability check) and
return a `BOOKED` dict with the new serial id.  A `None` parse result
(empty input) violates the `NOT NULL` column constraint, so the insert
raises and the `except` clause returns an `ERROR` dict; `fail` injects
any other database exception.
-/
def book_appointment (fail : Option PyErr) (today : Today)
    (dateutil : String → Option PyDate) (db : DbState)
    (patient_id : Int) (first_name last_name date_of_birth contact_number
    preferred_treatment preferred_date preferred_time preferred_dentist : String) :
    PyVal × DbState :=
  match fail with
  | some e => (errDict e, db)
  | none =>
    match parse_date_str today dateutil preferred_date,
          parse_time_str preferred_time with
    | some pd, some pt =>
        let row : AppointmentRow :=
          ⟨db.nextId, patient_id, first_name, last_name, date_of_birth,
           contact_number, preferred_treatment, some pd, some pt,
           preferred_dentist, "confirmed"⟩
        (PyVal.dict [("status", PyVal.str "BOOKED"),
                     ("appointment_id", PyVal.int db.nextId),
                     ("treatment", PyVal.str preferred_treatment),
                     ("date", PyVal.str pd),
                     ("time", PyVal.str pt),
                     ("dentist", PyVal.str preferred_dentist)],
         ⟨db.rows ++ [row], db.nextId + 1⟩)
    | _, _ =>
        (errDict "null value in column violates not-null constraint", db)

/-- The `SET status = 'cancelled' WHERE appointment_id = %s` update,
applied to one row. -/
def cancelRow (appointment_id : Nat) (r : AppointmentRow) : AppointmentRow :=
  if r.appointment_id = appointment_id then { r with status := "cancelled" } else r

/-- `str(row[i])` on a TEXT column that may be NULL. -/
def strOfCol (v : Option String) : String :=
  match v with
  | some s => s
  | none => "None"

/-- The body of the `with db_cursor()` block in `cancel_appointment`:
run the `UPDATE ... RETURNING` and `fetchone()` (the first updated
row), or raise the injected exception. -/
def cancelBody (fail : Option PyErr) (appointment_id : Nat) (db : DbState) :
    Except PyErr (DbState × Option AppointmentRow) :=
  match fail with
  | some e => Except.error e
  | none =>
      Except.ok (⟨db.rows.map (cancelRow appointment_id), db.nextId⟩,
        (db.rows.find? (fun r => r.appointment_id = appointment_id)).map
          (cancelRow appointment_id))

/--
`cancel_appointment` (executor.py lines 420-450): soft-delete via
`UPDATE appointments SET status = 'cancelled'` inside `db_cursor`;
returns a `CANCELLED` dict for the updated row, an
`ERROR`/"Appointment not found." dict when no row matched, and converts
any raised exception into an `ERROR` dict.
-/
def cancel_appointment (fail : Option PyErr) (db : DbState) (appointment_id : Nat) :
    PyVal × DbState :=
  let run := DbConnection.db_cursor (Except.ok ()) (cancelBody fail appointment_id) db
  match run.outcome with
  | Except.error e => (errDict e, run.finalDb)
  | Except.ok row =>
    match row with
    | some r =>
        (PyVal.dict [("status", PyVal.str "CANCELLED"),
                     ("treatment", PyVal.str r.preferred_treatment),
                     ("date", PyVal.str (strOfCol r.preferred_date)),
                     ("time", PyVal.str (strOfCol r.preferred_time)),
                     ("dentist", PyVal.str r.preferred_dentist)],
         run.finalDb)
    | none =>
        (PyVal.dict [("status", PyVal.str "ERROR"),
                     ("message", PyVal.str "Appointment not found.")],
         run.finalDb)

end AppointmentExecutor

/-! ## utils/phone_utils.py -/

namespace PhoneUtils

/-- `normalize_phone` (phone_utils.py lines 91-95):
`re.sub(r"[^\d]", "", str(phone))[:10]`, with `""` for falsy input. -/
def normalize_phone (phone : String) : String :=
  if phone = "" then ""
  else ⟨(phone.data.filter Char.isDigit).take 10⟩

end PhoneUtils

/-! ## utils/date_time_utils.py — `parse_time` -/

namespace DateTimeUtils

inductive Period where
  | am
  | pm
deriving DecidableEq, Repr

/-- The optional `(?::(\d{2}))?` minute group: `:` plus exactly two
digits consumed when present, else minute 0 with nothing consumed. -/
def minutesStep (l1 : List Char) : Nat × List Char :=
  match l1 with
  | a :: c1 :: c2 :: rest =>
      if a = ':' && c1.isDigit && c2.isDigit then (digitVal c1 * 10 + digitVal c2, rest)
      else (0, l1)
  | _ => (0, l1)

/--
The match of `(\d{1,2})(?::(\d{2}))?\s*(am|pm)?` at a position whose
head is a digit: greedy one-or-two-digit hour, optional minute group
(via `minutesStep`, `0` when absent as
`int(m.group(2)) if m.group(2) else 0`), any run of whitespace, then an
optional `am`/`pm` (group 3).  All trailing parts are optional, so the
match never fails or backtracks past the hour digits.
-/
def searchHere (l : List Char) : Nat × Nat × Option Period :=
  match take2Digits l with
  | some (h, l1) =>
    let ms := minutesStep l1
    let l3 := ms.2.dropWhile pyIsSpace
    let g3 :=
      if listPrefixOf ['a', 'm'] l3 then some Period.am
      else if listPrefixOf ['p', 'm'] l3 then some Period.pm
      else none
    (h, ms.1, g3)
  | none => (0, 0, none)

/-- `re.search` for the pattern above: the leftmost (first-digit)
position at which it matches, `none` when the string has no digit. -/
def timeSearch : List Char → Option (Nat × Nat × Option Period)
  | [] => none
  | c :: t => if c.isDigit then some (searchHere (c :: t)) else timeSearch t

/-- The `period_hint` computed from period words in the input. -/
def periodHint (s : String) : Option Period :=
  if strContainsS s "morning" then some Period.am
  else if strContainsS s "afternoon" || strContainsS s "evening" || strContainsS s "night" then
    some Period.pm
  else none

/--
`parse_time` (date_time_utils.py lines 96-123): regex search for an
hour/minute/am-pm group, `period_hint` fallback for the marker, the
12-hour adjustments — including the implicit-PM shift `hour += 12` for
a bare hour below 9 — and the `dt_time(hour, minute)` construction,
whose `ValueError` (hour > 23 or minute > 59) makes the function return
`None`.
-/
def parse_time (time_str : String) : Option (Nat × Nat) :=
  if time_str = "" then none
  else
    let s := pyLowerStrip time_str
    match timeSearch s.data with
    | none => none
    | some (hour, minute, g3) =>
      let ampm : Option Period :=
        match g3 with
        | some p => some p
        | none => periodHint s
      let h :=
        if ampm = some Period.pm && hour ≠ 12 then hour + 12
        else if ampm = some Period.am && hour = 12 then 0
        else if ampm = none && hour < 9 then hour + 12
        else hour
      if h ≤ 23 && minute ≤ 59 then some (h, minute) else none

end DateTimeUtils

/-! ## main.py — call-bridge session and messages -/

namespace MainBridge

/-- `session["supplier_context"]` (main.py lines 1935-1940). -/
structure SupplierContext where
  caller_name : Option PyVal
  company_name : Option PyVal
  contact_number : Option PyVal
  is_known_supplier : Bool

/-- The per-call session dict created by `make_new_session`
(main.py lines 1916-1941).  `created_at` and timestamps are clock
readings in milliseconds. -/
structure Session where
  call_sid : String
  stream_sid : Option String
  verified : Bool
  patient_data : Option PyVal
  current_flow : Option String
  fetched_appointments : PyVal
  is_speaking : Bool
  interruption_pending : Bool
  current_response_id : Option String
  greeting_sent : Bool
  last_assistant_item_id : Option String
  audio_start_time : Option Nat
  elapsed_ms : Nat
  audio_queue : List String
  supplier_context : SupplierContext

/-- `make_new_session(call_sid)`. -/
def make_new_session (call_sid : String) : Session :=
  ⟨call_sid, none, false, none, none, PyVal.arr [], false, false, none,
   false, none, none, 0, [], ⟨none, none, none, false⟩⟩

/-- JSON messages the bridge sends to the model socket. -/
inductive BridgeMsg where
  | responseCancel
  | itemTruncate (item_id : String) (content_index : Nat) (audio_end_ms : Nat)
  | functionCallOutput (call_id : Option String) (output : PyVal)
  | responseCreate

/-- Truthiness of an optional string field of the session dict
(`None` and `""` are falsy). -/
def optStrTruthy (v : Option String) : Bool :=
  match v with
  | none => false
  | some s => s ≠ ""

/--
The `input_audio_buffer.speech_started` handler (main.py lines
2823-2858), given the current wall clock in milliseconds.  Barge-in
runs only when `session.get("is_speaking")` and
`session.get("last_assistant_item_id")` are both truthy; it computes
the elapsed playback time (0 when no start timestamp), sends
`response.cancel` only when `current_response_id` is truthy, sends
`conversation.item.truncate` at the elapsed offset, and clears the
playback bookkeeping.  Returns the updated session and the messages
sent to the model socket.
-/
def handleSpeechStarted (now : Nat) (session : Session) : Session × List BridgeMsg :=
  if session.is_speaking && optStrTruthy session.last_assistant_item_id then
    let elapsed :=
      match session.audio_start_time with
      | some t0 => now - t0
      | none => 0
    let cancelMsgs :=
      if optStrTruthy session.current_response_id then [BridgeMsg.responseCancel] else []
    let truncMsgs :=
      if optStrTruthy session.last_assistant_item_id then
        [BridgeMsg.itemTruncate (session.last_assistant_item_id.getD "") 0 elapsed]
      else []
    ({ session with
        audio_queue := [],
        last_assistant_item_id := none,
        audio_start_time := none,
        elapsed_ms := 0,
        is_speaking := false },
     cancelMsgs ++ truncMsgs)
  else (session, [])

end MainBridge

/-! ## main.py — the tool dispatcher `handle_function_call` -/

namespace MainBridge

/-- The parsed `arguments` dict of a function call. -/
def Args : Type := List (String × PyVal)

/-- `arguments.get(k)`. -/
def argGet (args : Args) (k : String) : Option PyVal :=
  ((List.find? (fun p => p.1 = k)) args).map (fun p => p.2)

/-- `arguments.get(k, default)`. -/
def argGetD (args : Args) (k : String) (default : PyVal) : PyVal :=
  (argGet args k).getD default

/-- `a or b` on possibly-missing dict values. -/
def pyOr (a b : Option PyVal) : Option PyVal :=
  if pyTruthyOpt a then a else b

/-- `a or "lit"` inside an f-string. -/
def pyOrStr (a : Option PyVal) (lit : String) : String :=
  match a with
  | some v => if pyTruthy v then pyStrOf v else lit
  | none => lit

/-- An `Option` field value passed on as a Python value (`None` when
absent). -/
def optVal (a : Option PyVal) : PyVal := a.getD PyVal.null

/-- `v - 1` on the `appointment_index` argument (raises `TypeError`
for non-numbers). -/
def pyToInt (v : PyVal) : Except PyErr Int :=
  match v with
  | PyVal.int n => Except.ok n
  | PyVal.bool b => Except.ok (if b then 1 else 0)
  | _ => Except.error "TypeError: unsupported operand type"

/-- `int(v)`: also converts decimal strings, else raises. -/
def pyIntCast (v : PyVal) : Except PyErr Int :=
  match v with
  | PyVal.int n => Except.ok n
  | PyVal.bool b => Except.ok (if b then 1 else 0)
  | PyVal.str s =>
      let l := pyStrip s.data
      let (neg, ds) := match l with
        | '-' :: rest => (true, rest)
        | _ => (false, l)
      if ds ≠ [] && ds.all Char.isDigit then
        let n : Int := ds.foldl (fun a c => a * 10 + (digitVal c : Int)) 0
        Except.ok (if neg then -n else n)
      else Except.error "ValueError: invalid literal for int"
  | _ => Except.error "TypeError: int argument"

/-- `len(v)`. -/
def pyLen (v : PyVal) : Except PyErr Nat :=
  match v with
  | PyVal.arr xs => Except.ok xs.length
  | PyVal.str s => Except.ok s.length
  | PyVal.dict fs => Except.ok fs.length
  | _ => Except.error "TypeError: object has no len"

/-- `v[i]` on a list value. -/
def pyIndex (v : PyVal) (i : Int) : Except PyErr PyVal :=
  match v with
  | PyVal.arr xs =>
      if 0 ≤ i ∧ i < (xs.length : Int) then Except.ok (xs.getD i.toNat PyVal.null)
      else Except.error "IndexError: list index out of range"
  | _ => Except.error "TypeError: object is not subscriptable"

/-- Iterate a list value. -/
def pyIterList (v : PyVal) : Except PyErr (List PyVal) :=
  match v with
  | PyVal.arr xs => Except.ok xs
  | _ => Except.error "TypeError: object is not iterable"

/-- Read a field of the session dict (`session.get(...)`); raises
`AttributeError` when `session` is `None`. -/
def sessGet {α : Type} (sess : Option Session) (f : Session → α) : Except PyErr α :=
  match sess with
  | none => Except.error "AttributeError: NoneType object has no attribute get"
  | some s => Except.ok (f s)

/-- Mutate the session dict (`session[...] = ...`); raises `TypeError`
when `session` is `None`. -/
def sessMod (sess : Option Session) (f : Session → Session) : Except PyErr (Option Session) :=
  match sess with
  | none => Except.error "TypeError: NoneType object does not support item assignment"
  | some s => Except.ok (some (f s))

/-- `session["patient_data"][k]`. -/
def pdGet (sess : Option Session) (k : String) : Except PyErr PyVal :=
  match sess with
  | none => Except.error "TypeError: NoneType object is not subscriptable"
  | some s =>
    match s.patient_data with
    | none => Except.error "TypeError: NoneType object is not subscriptable"
    | some p => pyGet p k

/--
The environment the dispatcher calls into: the domain executors
(database-backed, and free to raise any exception) and the pure
phone/DOB helper functions (which raise on non-string arguments).
Executor arguments are passed keyword-style.
-/
structure ToolEnv where
  verify_by_lastname_dob : Args → Except PyErr PyVal
  verify_by_lastname_dob_contact : Args → Except PyErr PyVal
  create_new_patient : Args → Except PyErr PyVal
  check_dentist_availability : Args → Except PyErr PyVal
  find_available_dentist : Args → Except PyErr PyVal
  book_appointment : Args → Except PyErr PyVal
  get_patient_appointments : Args → Except PyErr PyVal
  update_appointment : Args → Except PyErr PyVal
  cancel_appointment : Args → Except PyErr PyVal
  save_complaint : Args → Except PyErr PyVal
  handle_business_info : Args → Except PyErr PyVal
  handle_insurance_query : Args → Except PyErr PyVal
  handle_warranty_query : Args → Except PyErr PyVal
  handle_kb_query : Args → Except PyErr PyVal
  get_patient_orders : Args → Except PyErr PyVal
  get_upcoming_appointments : Args → Except PyErr PyVal
  get_past_appointments : Args → Except PyErr PyVal
  check_supplier : Args → Except PyErr PyVal
  update_order_by_patient_id : Args → Except PyErr PyVal
  update_order_status_by_patient_name : Args → Except PyErr PyVal
  log_business_call : Args → Except PyErr PyVal
  normalize_dob : PyVal → Except PyErr PyVal
  extract_phone_from_text : PyVal → Except PyErr PyVal
  format_phone_for_speech : PyVal → Except PyErr PyVal

/-- The `update_fields` dict assembled in the `update_my_appointment`
branch (main.py lines 2400-2404). -/
def buildUpdateFields (args : Args) : List (String × PyVal) :=
  (if pyTruthyOpt (argGet args "new_treatment") then
     [("preferred_treatment", argGetD args "new_treatment" PyVal.null)] else []) ++
  (if pyTruthyOpt (argGet args "new_date") then
     [("preferred_date", argGetD args "new_date" PyVal.null)] else []) ++
  (if pyTruthyOpt (argGet args "new_time") then
     [("preferred_time", argGetD args "new_time" PyVal.null)] else []) ++
  (if pyTruthyOpt (argGet args "new_dentist") then
     [("preferred_dentist", argGetD args "new_dentist" PyVal.null)] else [])

/--
The `try:` body of `handle_function_call` (main.py lines 2262-2634):
the `if/elif` dispatch over the tool name.  Returns the `result` dict
and the (possibly mutated) session, or the exception the branch raised.
-/
def dispatchBody (env : ToolEnv) (function_name : String) (args : Args)
    (sess : Option Session) : Except PyErr (PyVal × Option Session) :=
  if function_name = "verify_existing_patient" then do
    let dob ← env.normalize_dob (argGetD args "date_of_birth" (PyVal.str ""))
    let r ← env.verify_by_lastname_dob
      [("last_name", argGetD args "last_name" (PyVal.str "")), ("dob", dob)]
    let st ← pyGet r "status"
    if pyEqStr st "VERIFIED" then do
      let sess2 ← sessMod sess (fun s => { s with patient_data := some r, verified := true })
      let fn ← pyGet r "first_name"
      let ln ← pyGet r "last_name"
      let db ← pyGet r "date_of_birth"
      let cn ← pyGetD r "contact_number" (PyVal.str "")
      let spoken ← env.format_phone_for_speech cn
      Except.ok (PyVal.dict [("status", PyVal.str "VERIFIED"), ("first_name", fn),
        ("last_name", ln), ("date_of_birth", db), ("contact_spoken", spoken)], sess2)
    else if pyEqStr st "MULTIPLE_FOUND" then do
      let msg ← pyGet r "message"
      Except.ok (PyVal.dict [("status", PyVal.str "MULTIPLE_FOUND"), ("message", msg)], sess)
    else do
      let msg ← pyGetD r "message" (PyVal.str "No account found.")
      Except.ok (PyVal.dict [("status", PyVal.str "NOT_FOUND"), ("message", msg)], sess)
  else if function_name = "verify_with_contact_number" then do
    let phone ← env.extract_phone_from_text (argGetD args "contact_number" (PyVal.str ""))
    let dob ← env.normalize_dob (argGetD args "date_of_birth" (PyVal.str ""))
    let r ← env.verify_by_lastname_dob_contact
      [("last_name", argGetD args "last_name" (PyVal.str "")), ("dob", dob),
       ("contact_number", phone)]
    let st ← pyGet r "status"
    if pyEqStr st "VERIFIED" then do
      let sess2 ← sessMod sess (fun s => { s with patient_data := some r, verified := true })
      let fn ← pyGet r "first_name"
      let ln ← pyGet r "last_name"
      Except.ok (PyVal.dict [("status", PyVal.str "VERIFIED"), ("first_name", fn),
        ("last_name", ln)], sess2)
    else do
      let msg ← pyGetD r "message" (PyVal.str "Could not verify.")
      Except.ok (PyVal.dict [("status", PyVal.str "NOT_FOUND"), ("message", msg)], sess)
  else if function_name = "create_new_patient" then do
    let phone ← env.extract_phone_from_text (argGetD args "contact_number" (PyVal.str ""))
    let dob ← env.normalize_dob (argGetD args "date_of_birth" (PyVal.str ""))
    let r ← env.create_new_patient
      [("first_name", argGetD args "first_name" (PyVal.str "")),
       ("last_name", argGetD args "last_name" (PyVal.str "")),
       ("dob", dob), ("contact_number", phone),
       ("insurance_info", argGetD args "insurance_info" PyVal.null)]
    let st ← pyGet r "status"
    if pyEqStr st "CREATED" then do
      let sess2 ← sessMod sess (fun s => { s with patient_data := some r, verified := true })
      let fn ← pyGet r "first_name"
      let ln ← pyGet r "last_name"
      Except.ok (PyVal.dict [("status", PyVal.str "CREATED"), ("first_name", fn),
        ("last_name", ln),
        ("message", PyVal.str "Account created. Patient verified and ready to book.")], sess2)
    else do
      let msg ← pyGetD r "message" (PyVal.str "Could not create account.")
      Except.ok (PyVal.dict [("status", PyVal.str "ERROR"), ("message", msg)], sess)
  else if function_name = "check_slot_availability" then do
    let r ← env.check_dentist_availability
      [("date_str", argGetD args "date" (PyVal.str "")),
       ("time_str", argGetD args "time" (PyVal.str "")),
       ("dentist_name", argGetD args "dentist_name" (PyVal.str ""))]
    Except.ok (r, sess)
  else if function_name = "find_any_available_dentist" then do
    let r ← env.find_available_dentist
      [("date_str", argGetD args "date" (PyVal.str "")),
       ("time_str", argGetD args "time" (PyVal.str ""))]
    Except.ok (r, sess)
  else if function_name = "book_appointment" then do
    let verified ← sessGet sess Session.verified
    let pdata ← sessGet sess Session.patient_data
    if !verified || !pyTruthyOpt pdata then
      Except.ok (PyVal.dict [("status", PyVal.str "ERROR"),
        ("message", PyVal.str "Patient must be verified first.")], sess)
    else do
      let pid ← pdGet sess "patient_id"
      let fn ← pdGet sess "first_name"
      let ln ← pdGet sess "last_name"
      let dob ← pdGet sess "date_of_birth"
      let cn ← pdGet sess "contact_number"
      let r ← env.book_appointment
        [("patient_id", pid), ("first_name", fn), ("last_name", ln),
         ("date_of_birth", dob), ("contact_number", cn),
         ("preferred_treatment", argGetD args "preferred_treatment" (PyVal.str "")),
         ("preferred_date", argGetD args "preferred_date" (PyVal.str "")),
         ("preferred_time", argGetD args "preferred_time" (PyVal.str "")),
         ("preferred_dentist", argGetD args "preferred_dentist" (PyVal.str ""))]
      let st ← pyGet r "status"
      if pyEqStr st "BOOKED" then do
        let t ← pyGet r "treatment"
        let d ← pyGet r "date"
        let tm ← pyGet r "time"
        let de ← pyGet r "dentist"
        Except.ok (PyVal.dict [("status", PyVal.str "BOOKED"), ("treatment", t),
          ("date", d), ("time", tm), ("dentist", de)], sess)
      else do
        let msg ← pyGetD r "message" (PyVal.str "Booking failed.")
        Except.ok (PyVal.dict [("status", PyVal.str "ERROR"), ("message", msg)], sess)
  else if function_name = "get_my_appointments" then do
    let verified ← sessGet sess Session.verified
    if !verified then
      Except.ok (PyVal.dict [("status", PyVal.str "ERROR"),
        ("message", PyVal.str "Patient not verified.")], sess)
    else do
      let pid ← pdGet sess "patient_id"
      let r ← env.get_patient_appointments [("patient_id", pid)]
      let st ← pyGet r "status"
      if pyEqStr st "SUCCESS" then do
        let appts ← pyGet r "appointments"
        let sess2 ← sessMod sess (fun s => { s with fetched_appointments := appts })
        let xs ← pyIterList appts
        let items ← xs.enum.mapM (fun p => do
          let t ← pyGet p.2 "treatment"
          let d ← pyGet p.2 "date"
          let tm ← pyGet p.2 "time"
          let de ← pyGet p.2 "dentist"
          let stt ← pyGet p.2 "status"
          Except.ok (PyVal.dict [("index", PyVal.int (p.1 + 1)), ("treatment", t),
            ("date", d), ("time", tm), ("dentist", de), ("status", stt)]))
        let n ← pyLen appts
        Except.ok (PyVal.dict [("status", PyVal.str "SUCCESS"),
          ("appointments", PyVal.arr items), ("count", PyVal.int n)], sess2)
      else do
        let msg ← pyGetD r "message" (PyVal.str "")
        Except.ok (PyVal.dict [("status", st), ("message", msg)], sess)
  else if function_name = "update_my_appointment" then do
    let verified ← sessGet sess Session.verified
    if !verified then
      Except.ok (PyVal.dict [("status", PyVal.str "ERROR"),
        ("message", PyVal.str "Patient not verified.")], sess)
    else do
      let idx0 ← pyToInt (argGetD args "appointment_index" (PyVal.int 1))
      let idx := idx0 - 1
      let appts0 ← sessGet sess Session.fetched_appointments
      let pair ←
        (if !pyTruthy appts0 then do
          let pid ← pdGet sess "patient_id"
          let r2 ← env.get_patient_appointments [("patient_id", pid)]
          let st2 ← pyGet r2 "status"
          if pyEqStr st2 "SUCCESS" then do
            let a2 ← pyGet r2 "appointments"
            let s2 ← sessMod sess (fun s => { s with fetched_appointments := a2 })
            Except.ok (a2, s2)
          else Except.ok (appts0, sess)
        else Except.ok (appts0, sess))
      let appts := pair.1
      let sess1 := pair.2
      let n ← pyLen appts
      if 0 ≤ idx ∧ idx < (n : Int) then do
        let a ← pyIndex appts idx
        let aid ← pyGet a "_id"
        let r ← env.update_appointment
          [("appointment_id", aid), ("update_fields", PyVal.dict (buildUpdateFields args))]
        let st ← pyGet r "status"
        if pyEqStr st "UPDATED" then do
          let sess2 ← sessMod sess1 (fun s => { s with fetched_appointments := PyVal.arr [] })
          let t ← pyGet r "treatment"
          let d ← pyGet r "date"
          let tm ← pyGet r "time"
          let de ← pyGet r "dentist"
          Except.ok (PyVal.dict [("status", PyVal.str "UPDATED"), ("treatment", t),
            ("date", d), ("time", tm), ("dentist", de)], sess2)
        else do
          let msg ← pyGetD r "message" (PyVal.str "Update failed.")
          Except.ok (PyVal.dict [("status", PyVal.str "ERROR"), ("message", msg)], sess1)
      else
        Except.ok (PyVal.dict [("status", PyVal.str "ERROR"),
          ("message", PyVal.str "Invalid index. Call get_my_appointments first.")], sess1)
  else if function_name = "cancel_my_appointment" then do
    let verified ← sessGet sess Session.verified
    if !verified then
      Except.ok (PyVal.dict [("status", PyVal.str "ERROR"),
        ("message", PyVal.str "Patient not verified.")], sess)
    else do
      let idx0 ← pyToInt (argGetD args "appointment_index" (PyVal.int 1))
      let idx := idx0 - 1
      let appts0 ← sessGet sess Session.fetched_appointments
      let pair ←
        (if !pyTruthy appts0 then do
          let pid ← pdGet sess "patient_id"
          let r2 ← env.get_patient_appointments [("patient_id", pid)]
          let st2 ← pyGet r2 "status"
          if pyEqStr st2 "SUCCESS" then do
            let a2 ← pyGet r2 "appointments"
            let s2 ← sessMod sess (fun s => { s with fetched_appointments := a2 })
            Except.ok (a2, s2)
          else Except.ok (appts0, sess)
        else Except.ok (appts0, sess))
      let appts := pair.1
      let sess1 := pair.2
      let n ← pyLen appts
      if 0 ≤ idx ∧ idx < (n : Int) then do
        let a ← pyIndex appts idx
        let aid ← pyGet a "_id"
        let r ← env.cancel_appointment
          [("appointment_id", aid), ("reason", argGetD args "reason" PyVal.null)]
        let st ← pyGet r "status"
        if pyEqStr st "CANCELLED" then do
          let sess2 ← sessMod sess1 (fun s => { s with fetched_appointments := PyVal.arr [] })
          let t ← pyGet r "treatment"
          let d ← pyGet r "date"
          let tm ← pyGet r "time"
          let de ← pyGet r "dentist"
          Except.ok (PyVal.dict [("status", PyVal.str "CANCELLED"), ("treatment", t),
            ("date", d), ("time", tm), ("dentist", de)], sess2)
        else do
          let msg ← pyGetD r "message" (PyVal.str "Cancel failed.")
          Except.ok (PyVal.dict [("status", PyVal.str "ERROR"), ("message", msg)], sess1)
      else
        Except.ok (PyVal.dict [("status", PyVal.str "ERROR"),
          ("message", PyVal.str "Invalid index. Call get_my_appointments first.")], sess1)
  else if function_name = "file_complaint" then do
    let catRaw := argGetD args "complaint_category" (PyVal.str "general")
    let catS ← (match catRaw with
      | PyVal.str s => Except.ok s
      | _ => Except.error "AttributeError: object has no attribute lower")
    let category : String := ⟨catS.data.map pyLowerChar⟩
    if category = "treatment" then do
      let verified ← sessGet sess Session.verified
      let pdata ← sessGet sess Session.patient_data
      if !verified || !pyTruthyOpt pdata then
        Except.ok (PyVal.dict [("status", PyVal.str "ERROR"),
          ("message", PyVal.str "Patient must be verified for a treatment complaint.")], sess)
      else do
        let fn ← pdGet sess "first_name"
        let ln ← pdGet sess "last_name"
        let cn ← (match pdata with
          | some p => pyGetD p "contact_number" PyVal.null
          | none => Except.error "unreachable")
        let pid ← pdGet sess "patient_id"
        let dob ← (match pdata with
          | some p => pyGetD p "date_of_birth" PyVal.null
          | none => Except.error "unreachable")
        let apptId := argGet args "appointment_id"
        let fetched ← sessGet sess Session.fetched_appointments
        let apptId2 := if !pyTruthyOpt apptId && pyTruthy fetched then none else apptId
        let r ← env.save_complaint
          [("complaint_category", PyVal.str "treatment"),
           ("complaint_text", argGetD args "complaint_text" (PyVal.str "")),
           ("first_name", fn), ("last_name", ln), ("contact_number", cn),
           ("patient_id", pid), ("appointment_id", optVal apptId2),
           ("date_of_birth", dob),
           ("treatment_name", argGetD args "treatment_name" PyVal.null),
           ("dentist_name", argGetD args "dentist_name" PyVal.null),
           ("treatment_date", argGetD args "treatment_date" PyVal.null),
           ("treatment_time", argGetD args "treatment_time" PyVal.null),
           ("additional_info", argGetD args "additional_info" PyVal.null)]
        let st ← pyGet r "status"
        if !pyEqStr st "SAVED" then Except.ok (r, sess)
        else do
          let msg ← pyGet r "message"
          Except.ok (PyVal.dict [("status", PyVal.str "SAVED"), ("message", msg)], sess)
    else do
      let r ← env.save_complaint
        [("complaint_category", PyVal.str "general"),
         ("complaint_text", argGetD args "complaint_text" (PyVal.str "")),
         ("first_name", argGetD args "first_name" PyVal.null),
         ("last_name", argGetD args "last_name" PyVal.null),
         ("contact_number", argGetD args "contact_number" PyVal.null)]
      let st ← pyGet r "status"
      if !pyEqStr st "SAVED" then Except.ok (r, sess)
      else do
        let msg ← pyGet r "message"
        Except.ok (PyVal.dict [("status", PyVal.str "SAVED"), ("message", msg)], sess)
  else if function_name = "get_business_information" then do
    let r ← env.handle_business_info [("user_input", argGetD args "query" (PyVal.str ""))]
    let st ← pyGetD r "status" (PyVal.str "SUCCESS")
    let resp ← pyGetD r "response" (PyVal.str "")
    Except.ok (PyVal.dict [("status", st), ("response", resp)], sess)
  else if function_name = "get_insurance_information" then do
    let r ← env.handle_insurance_query [("user_input", argGetD args "query" (PyVal.str ""))]
    let st ← pyGetD r "status" (PyVal.str "SUCCESS")
    let resp ← pyGetD r "response" (PyVal.str "")
    Except.ok (PyVal.dict [("status", st), ("response", resp)], sess)
  else if function_name = "get_warranty_information" then do
    let r ← env.handle_warranty_query [("user_input", argGetD args "query" (PyVal.str ""))]
    let st ← pyGetD r "status" (PyVal.str "SUCCESS")
    let resp ← pyGetD r "response" (PyVal.str "")
    Except.ok (PyVal.dict [("status", st), ("response", resp)], sess)
  else if function_name = "answer_dental_question" then do
    let r ← env.handle_kb_query [("user_input", argGetD args "query" (PyVal.str ""))]
    let src ← pyGetD r "source" (PyVal.str "kb")
    let resp ← pyGetD r "response" (PyVal.str "")
    Except.ok (PyVal.dict [("status", src), ("response", resp)], sess)
  else if function_name = "get_my_order_status" then do
    let verified ← sessGet sess Session.verified
    if !verified then
      Except.ok (PyVal.dict [("status", PyVal.str "ERROR"),
        ("message", PyVal.str "Patient not verified.")], sess)
    else do
      let pid ← pdGet sess "patient_id"
      let r ← env.get_patient_orders [("patient_id", pid)]
      let st ← pyGet r "status"
      if pyEqStr st "SUCCESS" then do
        let orders ← pyGet r "orders"
        let xs ← pyIterList orders
        let items ← xs.mapM (fun o => do
          let p ← pyGet o "product_name"
          let s ← pyGet o "order_status"
          let nts ← pyGetD o "notes" (PyVal.str "")
          Except.ok (PyVal.dict [("product", p), ("status", s), ("notes", nts)]))
        let cnt ← pyGet r "count"
        Except.ok (PyVal.dict [("status", PyVal.str "SUCCESS"),
          ("orders", PyVal.arr items), ("count", cnt)], sess)
      else do
        let msg ← pyGetD r "message" (PyVal.str "No orders found.")
        Except.ok (PyVal.dict [("status", st), ("message", msg)], sess)
  else if function_name = "get_my_upcoming_appointments" then do
    let verified ← sessGet sess Session.verified
    if !verified then
      Except.ok (PyVal.dict [("status", PyVal.str "ERROR"),
        ("message", PyVal.str "Patient not verified.")], sess)
    else do
      let pid ← pdGet sess "patient_id"
      let r ← env.get_upcoming_appointments [("patient_id", pid)]
      let st ← pyGet r "status"
      if pyEqStr st "SUCCESS" then do
        let appts ← pyGet r "appointments"
        let xs ← pyIterList appts
        let items ← xs.mapM (fun a => do
          let t ← pyGet a "treatment"
          let d ← pyGet a "date"
          let tm ← pyGet a "time"
          let de ← pyGet a "dentist"
          Except.ok (PyVal.dict [("treatment", t), ("date", d), ("time", tm),
            ("dentist", de)]))
        let cnt ← pyGet r "count"
        Except.ok (PyVal.dict [("status", PyVal.str "SUCCESS"),
          ("appointments", PyVal.arr items), ("count", cnt)], sess)
      else do
        let msg ← pyGetD r "message" (PyVal.str "None found.")
        Except.ok (PyVal.dict [("status", st), ("message", msg)], sess)
  else if function_name = "get_my_treatment_history" then do
    let verified ← sessGet sess Session.verified
    if !verified then
      Except.ok (PyVal.dict [("status", PyVal.str "ERROR"),
        ("message", PyVal.str "Patient not verified.")], sess)
    else do
      let pid ← pdGet sess "patient_id"
      let r ← env.get_past_appointments [("patient_id", pid)]
      let st ← pyGet r "status"
      if pyEqStr st "SUCCESS" then do
        let appts ← pyGet r "appointments"
        let xs ← pyIterList appts
        let items ← (xs.take 5).mapM (fun a => do
          let t ← pyGet a "treatment"
          let d ← pyGet a "date"
          let de ← pyGet a "dentist"
          Except.ok (PyVal.dict [("treatment", t), ("date", d), ("dentist", de)]))
        let cnt ← pyGet r "count"
        Except.ok (PyVal.dict [("status", PyVal.str "SUCCESS"),
          ("appointments", PyVal.arr items), ("count", cnt)], sess)
      else do
        let msg ← pyGetD r "message" (PyVal.str "None found.")
        Except.ok (PyVal.dict [("status", st), ("message", msg)], sess)
  else if function_name = "check_known_supplier" then do
    let r ← env.check_supplier [("company_name", argGetD args "company_name" (PyVal.str ""))]
    let st ← pyGet r "status"
    if pyEqStr st "FOUND" then do
      let sup ← pyGet r "supplier"
      let cname ← pyGet sup "company_name"
      let sess2 ← sessMod sess (fun s =>
        { s with supplier_context :=
          { s.supplier_context with company_name := some cname, is_known_supplier := true } })
      let spec ← pyGet sup "specialty"
      Except.ok (PyVal.dict [("status", PyVal.str "FOUND"), ("company_name", cname),
        ("specialty", spec),
        ("message", PyVal.str ("Verified supplier: " ++ pyStrOf cname ++ "."))], sess2)
    else do
      let sess2 ← sessMod sess (fun s =>
        { s with supplier_context := { s.supplier_context with is_known_supplier := false } })
      let msg ← pyGet r "message"
      Except.ok (PyVal.dict [("status", PyVal.str "NOT_FOUND"), ("message", msg)], sess2)
  else if function_name = "update_supplier_order" then do
    let patient_id := argGet args "patient_id"
    let last_name := argGet args "patient_last_name"
    let product := argGetD args "product_name" (PyVal.str "")
    let r ←
      (if pyTruthyOpt patient_id then do
        let pid ← pyIntCast (optVal patient_id)
        let ctx ← sessGet sess Session.supplier_context
        let notes := "Supplier confirmed order ready — " ++
          (match ctx.company_name with
           | some v => pyStrOf v
           | none => "")
        env.update_order_by_patient_id
          [("patient_id", PyVal.int pid), ("product_name", product),
           ("new_status", PyVal.str "ready"), ("notes", PyVal.str notes)]
      else if pyTruthyOpt last_name then do
        let ctx ← sessGet sess Session.supplier_context
        let notes := "Supplier confirmed order ready — " ++
          (match ctx.company_name with
           | some v => pyStrOf v
           | none => "")
        env.update_order_status_by_patient_name
          [("patient_name", optVal last_name), ("product_name", product),
           ("new_status", PyVal.str "ready"), ("notes", PyVal.str notes)]
      else
        Except.ok (PyVal.dict [("status", PyVal.str "ERROR"),
          ("message", PyVal.str "Need patient_id or patient_last_name to update order.")]))
    Except.ok (r, sess)
  else if function_name = "log_supplier_call" then do
    let ctx ← sessGet sess Session.supplier_context
    let caller_name := pyOr (argGet args "caller_name") ctx.caller_name
    let company_name := pyOr (argGet args "company_name") ctx.company_name
    let contact_number := pyOr (argGet args "contact_number") ctx.contact_number
    let sessA ←
      (if pyTruthyOpt (argGet args "caller_name") then
        sessMod sess (fun s => { s with supplier_context :=
          { s.supplier_context with caller_name := argGet args "caller_name" } })
      else Except.ok sess)
    let sessB ←
      (if pyTruthyOpt (argGet args "company_name") then
        sessMod sessA (fun s => { s with supplier_context :=
          { s.supplier_context with company_name := argGet args "company_name" } })
      else Except.ok sessA)
    let sessC ←
      (if pyTruthyOpt (argGet args "contact_number") then
        sessMod sessB (fun s => { s with supplier_context :=
          { s.supplier_context with contact_number := argGet args "contact_number" } })
      else Except.ok sessB)
    let _ ← env.log_business_call
      [("caller_name", optVal caller_name), ("company_name", optVal company_name),
       ("contact_number", optVal contact_number),
       ("purpose", argGetD args "purpose" PyVal.null),
       ("full_notes", PyVal.dict args)]
    Except.ok (PyVal.dict [("status", PyVal.str "LOGGED"),
      ("message", PyVal.str ("Call from " ++ pyOrStr caller_name "caller" ++ " (" ++
        pyOrStr company_name "unknown company" ++
        ") logged. Management will follow up."))], sessC)
  else
    Except.ok (PyVal.dict [("error", PyVal.str ("Unknown function: " ++ function_name))], sess)

/-- What one `handle_function_call` invocation produces. -/
structure HandleResult where
  result : PyVal
  session : Option Session
  msgs : List BridgeMsg

/--
`handle_function_call` (main.py lines 2257-2652): run the dispatch
inside `try:`; any exception is caught and converted to
`\x7b"status": "ERROR", "message": str(e)\x7d`; then a
`function_call_output` item carrying the JSON result and a
`response.create` are always sent to the model socket.
-/
def handle_function_call (env : ToolEnv) (function_name : String) (args : Args)
    (call_id : Option String) (sess : Option Session) : HandleResult :=
  match dispatchBody env function_name args sess with
  | Except.ok (result, sess2) =>
      ⟨result, sess2,
       [BridgeMsg.functionCallOutput call_id result, BridgeMsg.responseCreate]⟩
  | Except.error e =>
      ⟨errDict e, sess,
       [BridgeMsg.functionCallOutput call_id (errDict e), BridgeMsg.responseCreate]⟩

end MainBridge

/-! ## Formatting lemmas -/

theorem digChar_isDigit (n : Nat) : (digChar n).isDigit = true := by
  have h : n % 10 < 10 := Nat.mod_lt _ (by omega)
  unfold digChar
  interval_cases h : n % 10 <;> decide

theorem isCanonicalYMD_fmtYMD (d : PyDate) (hm : d.month < 100) (hd : d.day < 100) :
    isCanonicalYMD (fmtYMD d) = true := by
  unfold fmtYMD pad4 pyPad2 isCanonicalYMD
  by_cases h1 : d.month < 10 <;> by_cases h2 : d.day < 10 <;>
    simp [h1, h2, hm, hd, digChar_isDigit]

theorem isCanonicalHM_fmtHM (h m : Nat) (hh : h < 100) (hm : m < 100) :
    isCanonicalHM (fmtHM h m) = true := by
  unfold fmtHM pyPad2 isCanonicalHM
  by_cases h1 : h < 10 <;> by_cases h2 : m < 10 <;>
    simp [h1, h2, hh, hm, digChar_isDigit]

/-! ## C9 — normalize_phone -/

/-- C9: for every input string, `normalize_phone` returns only digit
characters, at most 10 of them, and is idempotent. -/
theorem c9_normalize_phone (s : String) :
    (∀ c ∈ (PhoneUtils.normalize_phone s).data, c.isDigit = true) ∧
    (PhoneUtils.normalize_phone s).length ≤ 10 ∧
    PhoneUtils.normalize_phone (PhoneUtils.normalize_phone s) =
      PhoneUtils.normalize_phone s := by
  unfold PhoneUtils.normalize_phone
  by_cases h : s = ""
  · simp [h]
  · simp only [h, if_false]
    refine ⟨?_, ?_, ?_⟩
    · intro c hc
      have hc2 : c ∈ s.data.filter Char.isDigit := List.take_subset _ _ hc
      exact List.of_mem_filter hc2
    · show (String.mk ((s.data.filter Char.isDigit).take 10)).length ≤ 10
      simp [String.length, List.length_take_le 10 (s.data.filter Char.isDigit)]
    · by_cases h2 : String.mk ((s.data.filter Char.isDigit).take 10) = ""
      · simp [h2]
      · simp only [h2, if_false]
        congr 1
        have hall : ∀ c ∈ (s.data.filter Char.isDigit).take 10, Char.isDigit c := by
          intro c hc
          exact List.of_mem_filter (List.take_subset _ _ hc)
        rw [List.filter_eq_self.mpr hall]
        exact List.take_of_length_le (List.length_take_le 10 _)

/-! ## C6 — db_cursor -/

/-- C6: with a successfully acquired connection and cursor, `db_cursor`
commits exactly when the body completes without an exception; when the
body raises, the database state is unchanged, the transaction is rolled
back, and the exception is re-raised; in both cases the cursor is
closed and the connection returned to the pool, and the pool is created
with min 1 / max 10 connections. -/
theorem c6_db_cursor {α : Type} (body : DbState → Except PyErr (DbState × α)) (db : DbState) :
    (∀ db2 a, body db = Except.ok (db2, a) →
      (DbConnection.db_cursor (Except.ok ()) body db).outcome = Except.ok a ∧
      (DbConnection.db_cursor (Except.ok ()) body db).committed = true ∧
      (DbConnection.db_cursor (Except.ok ()) body db).rolledBack = false ∧
      (DbConnection.db_cursor (Except.ok ()) body db).finalDb = db2) ∧
    (∀ e, body db = Except.error e →
      (DbConnection.db_cursor (Except.ok ()) body db).outcome = Except.error e ∧
      (DbConnection.db_cursor (Except.ok ()) body db).committed = false ∧
      (DbConnection.db_cursor (Except.ok ()) body db).rolledBack = true ∧
      (DbConnection.db_cursor (Except.ok ()) body db).finalDb = db) ∧
    (DbConnection.db_cursor (Except.ok ()) body db).cursorClosed = true ∧
    (DbConnection.db_cursor (Except.ok ()) body db).connReturned = true ∧
    DbConnection.get_pool_config = (1, 10) := by
  refine ⟨?_, ?_, ?_, ?_, rfl⟩
  · intro db2 a hb
    simp [DbConnection.db_cursor, hb, DbConnection.commitConn]
  · intro e hb
    simp [DbConnection.db_cursor, hb, DbConnection.rollbackConn]
  · cases hb : body db <;> simp [DbConnection.db_cursor, hb]
  · cases hb : body db <;> simp [DbConnection.db_cursor, hb]

/-- Witness for C6: a body that raises leaves the database unchanged,
rolls back, re-raises, and still closes the cursor and returns the
connection. -/
theorem c6_db_cursor_witness :
    (DbConnection.db_cursor (Except.ok ())
      (fun _ => (Except.error "boom" : Except PyErr (DbState × Unit)))
      ⟨[], 1⟩).outcome = Except.error "boom" ∧
    (DbConnection.db_cursor (Except.ok ())
      (fun _ => (Except.error "boom" : Except PyErr (DbState × Unit)))
      ⟨[], 1⟩).finalDb = ⟨[], 1⟩ ∧
    (DbConnection.db_cursor (Except.ok ())
      (fun _ => (Except.error "boom" : Except PyErr (DbState × Unit)))
      ⟨[], 1⟩).rolledBack = true := by
  have h := c6_db_cursor (fun _ => (Except.error "boom" : Except PyErr (DbState × Unit)))
    ⟨[], 1⟩
  exact ⟨(h.2.1 "boom" rfl).1, (h.2.1 "boom" rfl).2.2.2, (h.2.1 "boom" rfl).2.2.1⟩

/-! ## C7 / C8 — cancel_appointment -/

/-- The fields of a row are untouched by the status update. -/
theorem cancelRow_fields (id : Nat) (r : AppointmentRow) :
    (AppointmentExecutor.cancelRow id r).appointment_id = r.appointment_id ∧
    (AppointmentExecutor.cancelRow id r).patient_id = r.patient_id ∧
    (AppointmentExecutor.cancelRow id r).first_name = r.first_name ∧
    (AppointmentExecutor.cancelRow id r).last_name = r.last_name ∧
    (AppointmentExecutor.cancelRow id r).date_of_birth = r.date_of_birth ∧
    (AppointmentExecutor.cancelRow id r).contact_number = r.contact_number ∧
    (AppointmentExecutor.cancelRow id r).preferred_treatment = r.preferred_treatment ∧
    (AppointmentExecutor.cancelRow id r).preferred_date = r.preferred_date ∧
    (AppointmentExecutor.cancelRow id r).preferred_time = r.preferred_time ∧
    (AppointmentExecutor.cancelRow id r).preferred_dentist = r.preferred_dentist := by
  unfold AppointmentExecutor.cancelRow
  by_cases h : r.appointment_id = id <;> simp [h]

/-- C7: cancelling a non-existent appointment id returns the
`ERROR` / "Appointment not found." dict, and `cancel_appointment`
converts every raised exception into an `ERROR` dict instead of
propagating it. -/
theorem c7_cancel_not_found_never_raises (db : DbState) (appointment_id : Nat) :
    (∀ e : PyErr,
      (AppointmentExecutor.cancel_appointment (some e) db appointment_id).1 = errDict e ∧
      (AppointmentExecutor.cancel_appointment (some e) db appointment_id).2 = db) ∧
    (db.rows.find? (fun r => r.appointment_id = appointment_id) = none →
      (AppointmentExecutor.cancel_appointment none db appointment_id).1 =
        PyVal.dict [("status", PyVal.str "ERROR"),
                    ("message", PyVal.str "Appointment not found.")]) := by
  constructor
  · intro e
    simp [AppointmentExecutor.cancel_appointment, AppointmentExecutor.cancelBody,
      DbConnection.db_cursor, DbConnection.rollbackConn]
  · intro hfind
    simp [AppointmentExecutor.cancel_appointment, AppointmentExecutor.cancelBody,
      DbConnection.db_cursor, DbConnection.commitConn, hfind]

/-- Witness for C7: on an empty table, cancelling id 3 yields the
not-found `ERROR` dict, and an injected exception is converted. -/
theorem c7_cancel_witness :
    (AppointmentExecutor.cancel_appointment none ⟨[], 1⟩ 3).1 =
      PyVal.dict [("status", PyVal.str "ERROR"),
                  ("message", PyVal.str "Appointment not found.")] ∧
    (AppointmentExecutor.cancel_appointment (some "connection lost") ⟨[], 1⟩ 3).1 =
      errDict "connection lost" := by
  exact ⟨(c7_cancel_not_found_never_raises ⟨[], 1⟩ 3).2 rfl,
         ((c7_cancel_not_found_never_raises ⟨[], 1⟩ 3).1 "connection lost").1⟩

/-- A placeholder row used only as a `getD` default. -/
def dummyRow : AppointmentRow :=
  ⟨0, 0, "", "", "", "", "", none, none, "", ""⟩

/-- C8: cancelling is a soft delete.  No row is added or removed; a row
whose id differs from the target is unchanged; the target row keeps its
treatment, date, time, dentist and patient fields and only its status
becomes `cancelled`; and when the row exists the returned dict is
`CANCELLED` with the row's fields. -/
theorem c8_cancel_soft_delete (db : DbState) (appointment_id : Nat) :
    ((AppointmentExecutor.cancel_appointment none db appointment_id).2).rows.length =
      db.rows.length ∧
    (∀ k, k < db.rows.length →
      (((db.rows.getD k dummyRow).appointment_id ≠ appointment_id →
        ((AppointmentExecutor.cancel_appointment none db appointment_id).2).rows.getD k dummyRow =
          db.rows.getD k dummyRow) ∧
       ((db.rows.getD k dummyRow).appointment_id = appointment_id →
        (((AppointmentExecutor.cancel_appointment none db appointment_id).2).rows.getD k dummyRow).status = "cancelled" ∧
        ((AppointmentExecutor.cancel_appointment none db appointment_id).2).rows.getD k dummyRow =
          { db.rows.getD k dummyRow with status := "cancelled" }))) ∧
    (∀ r, db.rows.find? (fun row => row.appointment_id = appointment_id) = some r →
      (AppointmentExecutor.cancel_appointment none db appointment_id).1 =
        PyVal.dict [("status", PyVal.str "CANCELLED"),
                    ("treatment", PyVal.str r.preferred_treatment),
                    ("date", PyVal.str (AppointmentExecutor.strOfCol r.preferred_date)),
                    ("time", PyVal.str (AppointmentExecutor.strOfCol r.preferred_time)),
                    ("dentist", PyVal.str r.preferred_dentist)]) := by
  have hrows : ((AppointmentExecutor.cancel_appointment none db appointment_id).2).rows =
      db.rows.map (AppointmentExecutor.cancelRow appointment_id) := by
    cases hfind : db.rows.find? (fun row => row.appointment_id = appointment_id) <;>
      simp [AppointmentExecutor.cancel_appointment, AppointmentExecutor.cancelBody,
        DbConnection.db_cursor, DbConnection.commitConn, hfind]
  refine ⟨by simp [hrows], ?_, ?_⟩
  · intro k hk
    have hget : ((AppointmentExecutor.cancel_appointment none db appointment_id).2).rows.getD k dummyRow =
        AppointmentExecutor.cancelRow appointment_id (db.rows.getD k dummyRow) := by
      rw [hrows]
      rw [List.getD_eq_getElem _ _ (by simpa using hk), List.getD_eq_getElem _ _ hk]
      simp
    constructor
    · intro hne
      rw [hget]
      unfold AppointmentExecutor.cancelRow
      rw [if_neg hne]
    · intro heq
      rw [hget]
      unfold AppointmentExecutor.cancelRow
      rw [if_pos heq]
      exact ⟨rfl, rfl⟩
  · intro r hfind
    simp [AppointmentExecutor.cancel_appointment, AppointmentExecutor.cancelBody,
      DbConnection.db_cursor, DbConnection.commitConn, hfind,
      (cancelRow_fields appointment_id r).2.2.2.2.2.2.1,
      (cancelRow_fields appointment_id r).2.2.2.2.2.2.2.1,
      (cancelRow_fields appointment_id r).2.2.2.2.2.2.2.2.1,
      (cancelRow_fields appointment_id r).2.2.2.2.2.2.2.2.2]

/-- Witness for C8: cancelling id 1 in a two-row table changes only the
first row's status and returns its fields. -/
theorem c8_cancel_witness :
    (AppointmentExecutor.cancel_appointment none
      ⟨[⟨1, 7, "A", "B", "d", "c", "Cleaning", some "2026-10-15", some "15:00",
         "Dr. Emily Carter", "confirmed"⟩,
        ⟨2, 8, "C", "D", "d", "c", "Filling", some "2026-10-16", some "10:00",
         "Dr. James Nguyen", "confirmed"⟩], 3⟩ 1).1 =
      PyVal.dict [("status", PyVal.str "CANCELLED"),
                  ("treatment", PyVal.str "Cleaning"),
                  ("date", PyVal.str "2026-10-15"),
                  ("time", PyVal.str "15:00"),
                  ("dentist", PyVal.str "Dr. Emily Carter")] ∧
    ((AppointmentExecutor.cancel_appointment none
      ⟨[⟨1, 7, "A", "B", "d", "c", "Cleaning", some "2026-10-15", some "15:00",
         "Dr. Emily Carter", "confirmed"⟩,
        ⟨2, 8, "C", "D", "d", "c", "Filling", some "2026-10-16", some "10:00",
         "Dr. James Nguyen", "confirmed"⟩], 3⟩ 1).2).rows.getD 1 dummyRow =
      ⟨2, 8, "C", "D", "d", "c", "Filling", some "2026-10-16", some "10:00",
       "Dr. James Nguyen", "confirmed"⟩ := by
  constructor
  · exact (c8_cancel_soft_delete
      ⟨[⟨1, 7, "A", "B", "d", "c", "Cleaning", some "2026-10-15", some "15:00",
         "Dr. Emily Carter", "confirmed"⟩,
        ⟨2, 8, "C", "D", "d", "c", "Filling", some "2026-10-16", some "10:00",
         "Dr. James Nguyen", "confirmed"⟩], 3⟩ 1).2.2
      ⟨1, 7, "A", "B", "d", "c", "Cleaning", some "2026-10-15", some "15:00",
       "Dr. Emily Carter", "confirmed"⟩ (by decide)
  · exact ((c8_cancel_soft_delete
      ⟨[⟨1, 7, "A", "B", "d", "c", "Cleaning", some "2026-10-15", some "15:00",
         "Dr. Emily Carter", "confirmed"⟩,
        ⟨2, 8, "C", "D", "d", "c", "Filling", some "2026-10-16", some "10:00",
         "Dr. James Nguyen", "confirmed"⟩], 3⟩ 1).2.1 1 (by decide)).1 (by decide)

/-! ## C4 — barge-in -/

/-- Counterexample for C4: a session that holds an active response id
(`current_response_id = "resp-1"`) but whose `is_speaking` flag is
false.  On `speech_started` the code sends nothing — no
`response.cancel`, no truncate — and clears nothing (the audio queue
stays non-empty), contradicting the claim that holding an active
response id triggers the cancel/truncate/clear sequence. -/
theorem c4_counterexample :
    MainBridge.handleSpeechStarted 5000
      ⟨"CA1", none, false, none, none, PyVal.arr [], false, false, some "resp-1",
       false, some "item-1", some 1000, 0, ["chunk"], ⟨none, none, none, false⟩⟩ =
      (⟨"CA1", none, false, none, none, PyVal.arr [], false, false, some "resp-1",
        false, some "item-1", some 1000, 0, ["chunk"], ⟨none, none, none, false⟩⟩, []) ∧
    MainBridge.optStrTruthy (some "resp-1") = true ∧
    (MainBridge.handleSpeechStarted 5000
      ⟨"CA1", none, false, none, none, PyVal.arr [], false, false, some "resp-1",
       false, some "item-1", some 1000, 0, ["chunk"], ⟨none, none, none, false⟩⟩).1.audio_queue ≠
      [] := by
  exact ⟨rfl, rfl, by decide⟩

/-- C4 (amended): the barge-in sequence runs exactly when the session
believes a response is being spoken AND holds a (truthy) last assistant
item id.  It then computes the elapsed playback milliseconds (0 when no
start timestamp), sends `response.cancel` only when an active response
id is held, sends `conversation.item.truncate` for the last assistant
item with `audio_end_ms` equal to the elapsed time, and afterwards
`is_speaking` is false and the audio queue, last-item id, start
timestamp and elapsed counter are cleared. -/
theorem c4_barge_in_amended (now : Nat) (s : MainBridge.Session)
    (hs : s.is_speaking = true)
    (hi : MainBridge.optStrTruthy s.last_assistant_item_id = true) :
    (MainBridge.handleSpeechStarted now s).1.is_speaking = false ∧
    (MainBridge.handleSpeechStarted now s).1.audio_queue = [] ∧
    (MainBridge.handleSpeechStarted now s).1.last_assistant_item_id = none ∧
    (MainBridge.handleSpeechStarted now s).1.audio_start_time = none ∧
    (MainBridge.handleSpeechStarted now s).1.elapsed_ms = 0 ∧
    (MainBridge.handleSpeechStarted now s).2 =
      (if MainBridge.optStrTruthy s.current_response_id then
        [MainBridge.BridgeMsg.responseCancel] else []) ++
      [MainBridge.BridgeMsg.itemTruncate (s.last_assistant_item_id.getD "") 0
        (match s.audio_start_time with
         | some t0 => now - t0
         | none => 0)] := by
  unfold MainBridge.handleSpeechStarted
  rw [hs]
  simp [hi]

/-- Witness for C4 (amended): a speaking session with item "item-1",
response "resp-1", playback started at 1000 ms, interrupted at
1750 ms: cancel and truncate at 750 ms are sent and the bookkeeping is
cleared. -/
theorem c4_barge_in_witness :
    (MainBridge.handleSpeechStarted 1750
      ⟨"CA2", none, false, none, none, PyVal.arr [], true, false, some "resp-1",
       false, some "item-1", some 1000, 0, ["chunk"], ⟨none, none, none, false⟩⟩).2 =
      [MainBridge.BridgeMsg.responseCancel,
       MainBridge.BridgeMsg.itemTruncate "item-1" 0 750] ∧
    (MainBridge.handleSpeechStarted 1750
      ⟨"CA2", none, false, none, none, PyVal.arr [], true, false, some "resp-1",
       false, some "item-1", some 1000, 0, ["chunk"], ⟨none, none, none, false⟩⟩).1.audio_queue =
      [] := by
  have h := c4_barge_in_amended 1750
    ⟨"CA2", none, false, none, none, PyVal.arr [], true, false, some "resp-1",
     false, some "item-1", some 1000, 0, ["chunk"], ⟨none, none, none, false⟩⟩ rfl rfl
  exact ⟨h.2.2.2.2.2, h.2.1⟩

/-! ## C5 — handle_function_call -/

/-- C5: for every tool name, argument dict, session and executor
behaviour, `handle_function_call` always sends a
`function_call_output` message carrying its result followed by
`response.create`; and whenever the dispatch body raises (a domain
executor or the dispatch itself), the result sent is the status-tagged
dict `\x7b"status": "ERROR", "message": str(e)\x7d` rather than a
propagated exception. -/
theorem c5_handle_function_call_catches (env : MainBridge.ToolEnv)
    (function_name : String) (args : MainBridge.Args)
    (call_id : Option String) (sess : Option MainBridge.Session) :
    (MainBridge.handle_function_call env function_name args call_id sess).msgs =
      [MainBridge.BridgeMsg.functionCallOutput call_id
        (MainBridge.handle_function_call env function_name args call_id sess).result,
       MainBridge.BridgeMsg.responseCreate] ∧
    (∀ e, MainBridge.dispatchBody env function_name args sess = Except.error e →
      (MainBridge.handle_function_call env function_name args call_id sess).result =
        errDict e) := by
  constructor
  · unfold MainBridge.handle_function_call
    cases hd : MainBridge.dispatchBody env function_name args sess with
    | ok p => rfl
    | error e => rfl
  · intro e he
    unfold MainBridge.handle_function_call
    rw [he]

/-- Witness for C5: with executors that all raise "boom", the
`check_slot_availability` tool call produces the converted `ERROR`
dict, and the output message is still sent. -/
theorem c5_handle_function_call_witness :
    (MainBridge.handle_function_call
      ⟨fun _ => Except.error "boom", fun _ => Except.error "boom",
       fun _ => Except.error "boom", fun _ => Except.error "boom",
       fun _ => Except.error "boom", fun _ => Except.error "boom",
       fun _ => Except.error "boom", fun _ => Except.error "boom",
       fun _ => Except.error "boom", fun _ => Except.error "boom",
       fun _ => Except.error "boom", fun _ => Except.error "boom",
       fun _ => Except.error "boom", fun _ => Except.error "boom",
       fun _ => Except.error "boom", fun _ => Except.error "boom",
       fun _ => Except.error "boom", fun _ => Except.error "boom",
       fun _ => Except.error "boom", fun _ => Except.error "boom",
       fun _ => Except.error "boom", fun _ => Except.error "boom",
       fun _ => Except.error "boom", fun _ => Except.error "boom"⟩
      "check_slot_availability" [] (some "call-1") none).result = errDict "boom" ∧
    (MainBridge.handle_function_call
      ⟨fun _ => Except.error "boom", fun _ => Except.error "boom",
       fun _ => Except.error "boom", fun _ => Except.error "boom",
       fun _ => Except.error "boom", fun _ => Except.error "boom",
       fun _ => Except.error "boom", fun _ => Except.error "boom",
       fun _ => Except.error "boom", fun _ => Except.error "boom",
       fun _ => Except.error "boom", fun _ => Except.error "boom",
       fun _ => Except.error "boom", fun _ => Except.error "boom",
       fun _ => Except.error "boom", fun _ => Except.error "boom",
       fun _ => Except.error "boom", fun _ => Except.error "boom",
       fun _ => Except.error "boom", fun _ => Except.error "boom",
       fun _ => Except.error "boom", fun _ => Except.error "boom",
       fun _ => Except.error "boom", fun _ => Except.error "boom"⟩
      "check_slot_availability" [] (some "call-1") none).msgs =
      [MainBridge.BridgeMsg.functionCallOutput (some "call-1") (errDict "boom"),
       MainBridge.BridgeMsg.responseCreate] := by
  have h := c5_handle_function_call_catches
    ⟨fun _ => Except.error "boom", fun _ => Except.error "boom",
     fun _ => Except.error "boom", fun _ => Except.error "boom",
     fun _ => Except.error "boom", fun _ => Except.error "boom",
     fun _ => Except.error "boom", fun _ => Except.error "boom",
     fun _ => Except.error "boom", fun _ => Except.error "boom",
     fun _ => Except.error "boom", fun _ => Except.error "boom",
     fun _ => Except.error "boom", fun _ => Except.error "boom",
     fun _ => Except.error "boom", fun _ => Except.error "boom",
     fun _ => Except.error "boom", fun _ => Except.error "boom",
     fun _ => Except.error "boom", fun _ => Except.error "boom",
     fun _ => Except.error "boom", fun _ => Except.error "boom",
     fun _ => Except.error "boom", fun _ => Except.error "boom"⟩
    "check_slot_availability" [] (some "call-1") none
  have hres := h.2 "boom" rfl
  exact ⟨hres, by rw [h.1, hres]⟩

/-! ## Lemmas for C1 / C2 -/

theorem listPrefixOf_refl (l : List Char) : listPrefixOf l l = true := by
  induction l with
  | nil => rfl
  | cons a as ih => simp [listPrefixOf, ih]

theorem strContainsL_self (l : List Char) : strContainsL l l = true := by
  cases l with
  | nil => rfl
  | cons c t => simp [strContainsL, listPrefixOf_refl]

theorem fmtYMD_ne_empty (d : PyDate) : fmtYMD d ≠ "" := by
  unfold fmtYMD pad4
  intro h
  have := congrArg String.data h
  simp at this

theorem fmtHM_ne_empty (h m : Nat) : fmtHM h m ≠ "" := by
  unfold fmtHM pyPad2
  intro hc
  have := congrArg String.data hc
  by_cases h1 : h < 10 <;> by_cases h2 : h < 100 <;> simp [h1, h2] at this

theorem parse_date_str_some_ne_empty (today : Today) (dateutil : String → Option PyDate)
    (date_str pd : String) (hne : date_str ≠ "")
    (hp : AppointmentExecutor.parse_date_str today dateutil date_str = some pd) :
    pd ≠ "" := by
  unfold AppointmentExecutor.parse_date_str at hp
  rw [if_neg hne] at hp
  cases hcore : AppointmentExecutor.dateCore today dateutil date_str with
  | some d =>
      rw [hcore] at hp
      cases hp
      exact fmtYMD_ne_empty d
  | none =>
      rw [hcore] at hp
      cases hp
      exact hne

theorem parse_time_str_some_ne_empty (time_str pt : String) (hne : time_str ≠ "")
    (hp : AppointmentExecutor.parse_time_str time_str = some pt) : pt ≠ "" := by
  unfold AppointmentExecutor.parse_time_str at hp
  rw [if_neg hne] at hp
  cases hcore : AppointmentExecutor.timeCore (pyLowerStrip time_str) with
  | some out =>
      rw [hcore] at hp
      cases hp
      unfold AppointmentExecutor.timeCore at hcore
      cases h24 : AppointmentExecutor.match24 (pyLowerStrip time_str).data with
      | some p =>
          rw [h24] at hcore
          cases hcore
          exact fmtHM_ne_empty p.1 p.2
      | none =>
          rw [h24] at hcore
          cases h12 : AppointmentExecutor.match12 (pyLowerStrip time_str).data with
          | some q =>
              rw [h12] at hcore
              simp at hcore
              rw [← hcore]
              exact fmtHM_ne_empty _ _
          | none =>
              rw [h12] at hcore
              by_cases hw1 : strContainsS (pyLowerStrip time_str) "morning" = true
              · simp [hw1] at hcore
                rw [← hcore]
                decide
              · by_cases hw2 : strContainsS (pyLowerStrip time_str) "afternoon" = true
                · simp [hw1, hw2] at hcore
                  rw [← hcore]
                  decide
                · by_cases hw3 : strContainsS (pyLowerStrip time_str) "evening" = true
                  · simp [hw1, hw2, hw3] at hcore
                    rw [← hcore]
                    decide
                  · simp [hw1, hw2, hw3] at hcore
  | none =>
      rw [hcore] at hp
      cases hp
      exact hne

/-- The row inserted by `book_appointment` matches its own slot in the
availability query. -/
theorem slotMatches_inserted (dentist pd pt : String) (id : Nat) (pid : Int)
    (fn ln dob cn tr : String) :
    AppointmentExecutor.slotMatches dentist pd pt
      ⟨id, pid, fn, ln, dob, cn, tr, some pd, some pt, dentist, "confirmed"⟩ = true := by
  simp [AppointmentExecutor.slotMatches, strContainsL_self]

/-! ## C2 — book a free slot, then check availability -/

/-- C2: on a database with no non-cancelled appointment matching the
slot, `book_appointment` returns `BOOKED`, and
`check_dentist_availability` invoked afterwards with the same dentist,
date and time inputs reports the freshly booked slot as
`NOT_AVAILABLE`. -/
theorem c2_booked_then_unavailable (today : Today) (dateutil : String → Option PyDate)
    (db : DbState) (patient_id : Int)
    (fn ln dob cn tr date_str time_str dentist pd pt : String)
    (hd : date_str ≠ "") (ht : time_str ≠ "")
    (hpd : AppointmentExecutor.parse_date_str today dateutil date_str = some pd)
    (hpt : AppointmentExecutor.parse_time_str time_str = some pt)
    (hfree : db.rows.countP (fun r => AppointmentExecutor.slotMatches dentist pd pt r) = 0) :
    pyGet (AppointmentExecutor.book_appointment none today dateutil db patient_id
      fn ln dob cn tr date_str time_str dentist).1 "status" =
      Except.ok (PyVal.str "BOOKED") ∧
    pyGet (AppointmentExecutor.check_dentist_availability none today dateutil
      (AppointmentExecutor.book_appointment none today dateutil db patient_id
        fn ln dob cn tr date_str time_str dentist).2
      date_str time_str dentist) "status" =
      Except.ok (PyVal.str "NOT_AVAILABLE") := by
  have hbook : AppointmentExecutor.book_appointment none today dateutil db patient_id
      fn ln dob cn tr date_str time_str dentist =
      (PyVal.dict [("status", PyVal.str "BOOKED"),
                   ("appointment_id", PyVal.int db.nextId),
                   ("treatment", PyVal.str tr),
                   ("date", PyVal.str pd),
                   ("time", PyVal.str pt),
                   ("dentist", PyVal.str dentist)],
       ⟨db.rows ++ [⟨db.nextId, patient_id, fn, ln, dob, cn, tr, some pd, some pt,
         dentist, "confirmed"⟩], db.nextId + 1⟩) := by
    unfold AppointmentExecutor.book_appointment
    rw [hpd, hpt]
  constructor
  · rw [hbook]
    rfl
  · rw [hbook]
    unfold AppointmentExecutor.check_dentist_availability
    rw [hpd, hpt]
    have hpdne : pd ≠ "" := parse_date_str_some_ne_empty today dateutil date_str pd hd hpd
    have hptne : pt ≠ "" := parse_time_str_some_ne_empty time_str pt ht hpt
    have hfalsy : (AppointmentExecutor.strFalsy (some pd) ||
        AppointmentExecutor.strFalsy (some pt)) = false := by
      simp [AppointmentExecutor.strFalsy, hpdne, hptne]
    simp only [hfalsy, Bool.false_eq_true, if_false, Option.getD_some]
    have hcount : (db.rows ++ [(⟨db.nextId, patient_id, fn, ln, dob, cn, tr, some pd,
        some pt, dentist, "confirmed"⟩ : AppointmentRow)]).countP
        (fun r => AppointmentExecutor.slotMatches dentist pd pt r) > 0 := by
      rw [List.countP_append]
      have h1 : (([(⟨db.nextId, patient_id, fn, ln, dob, cn, tr, some pd,
          some pt, dentist, "confirmed"⟩ : AppointmentRow)]).countP
          (fun r => AppointmentExecutor.slotMatches dentist pd pt r)) = 1 := by
        simp [List.countP_cons, slotMatches_inserted]
      omega
    rw [if_pos hcount]
    rfl

/-- Witness for C2: booking `2026-10-15` / `15:00` with
`Dr. Emily Carter` on an empty table returns `BOOKED`, and the
follow-up availability check returns `NOT_AVAILABLE`. -/
theorem c2_booked_then_unavailable_witness :
    pyGet (AppointmentExecutor.book_appointment none ⟨⟨2026, 10, 12⟩, 0⟩ (fun _ => none)
      ⟨[], 1⟩ 7 "Ann" "Lee" "01-01-2000" "0412345678" "Cleaning"
      "2026-10-15" "15:00" "Dr. Emily Carter").1 "status" =
      Except.ok (PyVal.str "BOOKED") ∧
    pyGet (AppointmentExecutor.check_dentist_availability none ⟨⟨2026, 10, 12⟩, 0⟩
      (fun _ => none)
      (AppointmentExecutor.book_appointment none ⟨⟨2026, 10, 12⟩, 0⟩ (fun _ => none)
        ⟨[], 1⟩ 7 "Ann" "Lee" "01-01-2000" "0412345678" "Cleaning"
        "2026-10-15" "15:00" "Dr. Emily Carter").2
      "2026-10-15" "15:00" "Dr. Emily Carter") "status" =
      Except.ok (PyVal.str "NOT_AVAILABLE") := by
  exact c2_booked_then_unavailable ⟨⟨2026, 10, 12⟩, 0⟩ (fun _ => none) ⟨[], 1⟩ 7
    "Ann" "Lee" "01-01-2000" "0412345678" "Cleaning"
    "2026-10-15" "15:00" "Dr. Emily Carter" "2026-10-15" "15:00"
    (by decide) (by decide) (by decide) (by decide) rfl

/-! ## C1 — booking an occupied slot -/

/-- Counterexample for C1: with a table already holding a `confirmed`
appointment for Dr. Emily Carter on 2026-10-15 at 15:00,
`book_appointment` for the very same dentist, date and time is NOT
rejected: it returns `BOOKED` and inserts a second row for the slot.
(The `UNAVAILABLE` rejection exists only in
`check_dentist_availability`, which `book_appointment` never calls.) -/
theorem c1_counterexample :
    pyGet (AppointmentExecutor.book_appointment none ⟨⟨2026, 10, 12⟩, 0⟩ (fun _ => none)
      ⟨[⟨1, 6, "Old", "Patient", "d", "c", "Checkup", some "2026-10-15", some "15:00",
         "Dr. Emily Carter", "confirmed"⟩], 2⟩
      7 "Ann" "Lee" "01-01-2000" "0412345678" "Cleaning"
      "2026-10-15" "15:00" "Dr. Emily Carter").1 "status" =
      Except.ok (PyVal.str "BOOKED") ∧
    ((AppointmentExecutor.book_appointment none ⟨⟨2026, 10, 12⟩, 0⟩ (fun _ => none)
      ⟨[⟨1, 6, "Old", "Patient", "d", "c", "Checkup", some "2026-10-15", some "15:00",
         "Dr. Emily Carter", "confirmed"⟩], 2⟩
      7 "Ann" "Lee" "01-01-2000" "0412345678" "Cleaning"
      "2026-10-15" "15:00" "Dr. Emily Carter").2).rows.length = 2 := by
  constructor
  · rfl
  · rfl

/-- C1 (amended): for a database already holding a non-cancelled
appointment matching the dentist/date/time, it is
`check_dentist_availability` that rejects the slot with
`NOT_AVAILABLE`; `book_appointment` itself performs no availability
check — it still returns `BOOKED` and appends a second `confirmed` row
for the same slot. -/
theorem c1_occupied_slot_amended (today : Today) (dateutil : String → Option PyDate)
    (db : DbState) (patient_id : Int)
    (fn ln dob cn tr date_str time_str dentist pd pt : String)
    (hd : date_str ≠ "") (ht : time_str ≠ "")
    (hpd : AppointmentExecutor.parse_date_str today dateutil date_str = some pd)
    (hpt : AppointmentExecutor.parse_time_str time_str = some pt)
    (hocc : 0 < db.rows.countP (fun r => AppointmentExecutor.slotMatches dentist pd pt r)) :
    pyGet (AppointmentExecutor.check_dentist_availability none today dateutil db
      date_str time_str dentist) "status" = Except.ok (PyVal.str "NOT_AVAILABLE") ∧
    pyGet (AppointmentExecutor.book_appointment none today dateutil db patient_id
      fn ln dob cn tr date_str time_str dentist).1 "status" =
      Except.ok (PyVal.str "BOOKED") ∧
    ((AppointmentExecutor.book_appointment none today dateutil db patient_id
      fn ln dob cn tr date_str time_str dentist).2).rows =
      db.rows ++ [⟨db.nextId, patient_id, fn, ln, dob, cn, tr, some pd, some pt,
        dentist, "confirmed"⟩] := by
  have hpdne : pd ≠ "" := parse_date_str_some_ne_empty today dateutil date_str pd hd hpd
  have hptne : pt ≠ "" := parse_time_str_some_ne_empty time_str pt ht hpt
  refine ⟨?_, ?_, ?_⟩
  · unfold AppointmentExecutor.check_dentist_availability
    rw [hpd, hpt]
    have hfalsy : (AppointmentExecutor.strFalsy (some pd) ||
        AppointmentExecutor.strFalsy (some pt)) = false := by
      simp [AppointmentExecutor.strFalsy, hpdne, hptne]
    simp only [hfalsy, Bool.false_eq_true, if_false, Option.getD_some]
    rw [if_pos hocc]
    rfl
  · unfold AppointmentExecutor.book_appointment
    rw [hpd, hpt]
    rfl
  · unfold AppointmentExecutor.book_appointment
    rw [hpd, hpt]

/-- Witness for C1 (amended): the occupied-slot database of the
counterexample; the availability check reports `NOT_AVAILABLE` while
booking still inserts. -/
theorem c1_occupied_slot_witness :
    pyGet (AppointmentExecutor.check_dentist_availability none ⟨⟨2026, 10, 12⟩, 0⟩
      (fun _ => none)
      ⟨[⟨1, 6, "Old", "Patient", "d", "c", "Checkup", some "2026-10-15", some "15:00",
         "Dr. Emily Carter", "confirmed"⟩], 2⟩
      "2026-10-15" "15:00" "Dr. Emily Carter") "status" =
      Except.ok (PyVal.str "NOT_AVAILABLE") ∧
    ((AppointmentExecutor.book_appointment none ⟨⟨2026, 10, 12⟩, 0⟩ (fun _ => none)
      ⟨[⟨1, 6, "Old", "Patient", "d", "c", "Checkup", some "2026-10-15", some "15:00",
         "Dr. Emily Carter", "confirmed"⟩], 2⟩
      7 "Ann" "Lee" "01-01-2000" "0412345678" "Cleaning"
      "2026-10-15" "15:00" "Dr. Emily Carter").2).rows =
      [⟨1, 6, "Old", "Patient", "d", "c", "Checkup", some "2026-10-15", some "15:00",
        "Dr. Emily Carter", "confirmed"⟩,
       ⟨2, 7, "Ann", "Lee", "01-01-2000", "0412345678", "Cleaning", some "2026-10-15",
        some "15:00", "Dr. Emily Carter", "confirmed"⟩] := by
  have h := c1_occupied_slot_amended ⟨⟨2026, 10, 12⟩, 0⟩ (fun _ => none)
    ⟨[⟨1, 6, "Old", "Patient", "d", "c", "Checkup", some "2026-10-15", some "15:00",
       "Dr. Emily Carter", "confirmed"⟩], 2⟩
    7 "Ann" "Lee" "01-01-2000" "0412345678" "Cleaning"
    "2026-10-15" "15:00" "Dr. Emily Carter" "2026-10-15" "15:00"
    (by decide) (by decide) (by decide) (by decide) (by decide)
  exact ⟨h.1, h.2.2⟩

/-! ## Lemmas for C3 -/

theorem digitVal_le_9 (c : Char) (h : c.isDigit = true) : digitVal c ≤ 9 := by
  unfold digitVal
  unfold Char.isDigit at h
  simp only [Bool.and_eq_true, decide_eq_true_eq] at h
  have h2 : c.val.toNat ≤ 57 := h.2
  have h1 : (48 : Nat) ≤ c.val.toNat := h.1
  unfold Char.toNat
  omega

theorem take2Digits_le_99 (l : List Char) (v : Nat) (r : List Char)
    (hp : take2Digits l = some (v, r)) : v ≤ 99 := by
  unfold take2Digits at hp
  split at hp
  · exact absurd hp (by simp)
  · rename_i c t
    split at hp
    · rename_i hc
      split at hp
      · rename_i c2 t2
        split at hp
        · rename_i hc2
          simp at hp
          have := digitVal_le_9 c hc
          have := digitVal_le_9 c2 hc2
          omega
        · simp at hp
          have := digitVal_le_9 c hc
          omega
      · simp at hp
        have := digitVal_le_9 c hc
        omega
    · exact absurd hp (by simp)

theorem match24_bounds (l : List Char) (h m : Nat)
    (hp : AppointmentExecutor.match24 l = some (h, m)) : h ≤ 99 ∧ m ≤ 99 := by
  unfold AppointmentExecutor.match24 at hp
  cases h2 : take2Digits l with
  | none => rw [h2] at hp; exact absurd hp (by simp)
  | some p =>
    rw [h2] at hp
    have hh : p.1 ≤ 99 := take2Digits_le_99 l p.1 p.2 (by rw [h2])
    simp only [Option.bind_eq_bind, Option.some_bind] at hp
    split at hp
    · rename_i a c1 c2 rest heq
      split at hp
      · rename_i hd
        simp only [Bool.and_eq_true, decide_eq_true_eq] at hd
        simp only [Option.some.injEq, Prod.mk.injEq] at hp
        have d1 := digitVal_le_9 c1 hd.1.1.2
        have d2 := digitVal_le_9 c2 hd.1.2
        omega
      · exact absurd hp (by simp)
    · exact absurd hp (by simp)

theorem match12_bounds (l : List Char) (h m : Nat) (ap : AppointmentExecutor.AmPm)
    (hp : AppointmentExecutor.match12 l = some (h, m, ap)) : h ≤ 99 ∧ m ≤ 99 := by
  unfold AppointmentExecutor.match12 at hp
  cases h2 : take2Digits l with
  | none => rw [h2] at hp; exact absurd hp (by simp)
  | some p =>
    rw [h2] at hp
    have hh : p.1 ≤ 99 := take2Digits_le_99 l p.1 p.2 (by rw [h2])
    simp only [Option.bind_eq_bind, Option.some_bind] at hp
    split at hp
    · rename_i hq1
      simp only [Option.some.injEq, Prod.mk.injEq] at hp
      split at hp
      · rename_i a c1 c2 rest heq
        split at hp
        · rename_i hd
          simp only [Bool.and_eq_true, decide_eq_true_eq] at hd
          have d1 := digitVal_le_9 c1 hd.1.2
          have d2 := digitVal_le_9 c2 hd.2
          omega
        · omega
      · omega
    · split at hp
      · rename_i hq2
        simp only [Option.some.injEq, Prod.mk.injEq] at hp
        split at hp
        · rename_i a c1 c2 rest heq
          split at hp
          · rename_i hd
            simp only [Bool.and_eq_true, decide_eq_true_eq] at hd
            have d1 := digitVal_le_9 c1 hd.1.2
            have d2 := digitVal_le_9 c2 hd.2
            omega
          · omega
        · omega
      · exact absurd hp (by simp)

theorem daysInMonth_le_31 (y m : Nat) : daysInMonth y m ≤ 31 := by
  unfold daysInMonth
  by_cases h2 : m = 2
  · by_cases hl : isLeap y = true <;> simp [h2, hl]
  · by_cases h4 : (m = 4 || m = 6 || m = 9 || m = 11) = true <;> simp [h2, h4]

theorem nextDay_bounds (d : PyDate) (hm : d.month ≤ 12) (hd : d.day ≤ 31) :
    (nextDay d).month ≤ 12 ∧ (nextDay d).day ≤ 31 := by
  unfold nextDay
  by_cases h1 : d.day < daysInMonth d.year d.month
  · simp only [h1, if_true]
    exact ⟨hm, by have := daysInMonth_le_31 d.year d.month; omega⟩
  · simp only [h1, if_false]
    by_cases h2 : d.month < 12
    · simp only [h2, if_true]
      exact ⟨by omega, by omega⟩
    · simp only [h2, if_false]
      exact ⟨by omega, by omega⟩

theorem addDays_bounds (d : PyDate) (n : Nat) (hm : d.month ≤ 12) (hd : d.day ≤ 31) :
    (addDays d n).month ≤ 12 ∧ (addDays d n).day ≤ 31 := by
  induction n generalizing d with
  | zero => exact ⟨hm, hd⟩
  | succ k ih =>
      have hb := nextDay_bounds d hm hd
      exact ih (nextDay d) hb.1 hb.2

theorem takeRangedNum_le (hi : Nat) (h9 : 9 ≤ hi) (l : List Char) (v : Nat) (r : List Char)
    (hp : AppointmentExecutor.takeRangedNum hi l = some (v, r)) : 1 ≤ v ∧ v ≤ hi := by
  rcases l with _ | ⟨c, t⟩
  · simp [AppointmentExecutor.takeRangedNum] at hp
  · rcases t with _ | ⟨c2, t2⟩
    · simp only [AppointmentExecutor.takeRangedNum] at hp
      split at hp
      · split at hp
        · rename_i hcond
          simp only [Bool.and_eq_true, decide_eq_true_eq] at hcond
          simp only [Option.some.injEq, Prod.mk.injEq] at hp
          omega
        · exact absurd hp (by simp)
      · exact absurd hp (by simp)
    · simp only [AppointmentExecutor.takeRangedNum] at hp
      split at hp
      · split at hp
        · rename_i hcond
          simp only [Bool.and_eq_true, decide_eq_true_eq] at hcond
          simp only [Option.some.injEq, Prod.mk.injEq] at hp
          omega
        · split at hp
          · rename_i hcond2
            simp only [Bool.and_eq_true, decide_eq_true_eq] at hcond2
            simp only [Option.some.injEq, Prod.mk.injEq] at hp
            omega
          · exact absurd hp (by simp)
      · exact absurd hp (by simp)

theorem matchMonthName_le (names : List (String × Nat))
    (hn : ∀ p ∈ names, 1 ≤ p.2 ∧ p.2 ≤ 12)
    (l : List Char) (m : Nat) (r : List Char)
    (hp : AppointmentExecutor.matchMonthName names l = some (m, r)) : 1 ≤ m ∧ m ≤ 12 := by
  unfold AppointmentExecutor.matchMonthName at hp
  cases hf : names.find? (fun p => listPrefixOf p.1.data l) with
  | none => rw [hf] at hp; exact absurd hp (by simp)
  | some p =>
    rw [hf] at hp
    simp only [Option.some.injEq, Prod.mk.injEq] at hp
    have := hn p (List.mem_of_find?_eq_some hf)
    omega

theorem parseYMD_bounds (l : List Char) (d : PyDate)
    (hp : AppointmentExecutor.parseYMD l = some d) : d.month ≤ 12 ∧ d.day ≤ 31 := by
  unfold AppointmentExecutor.parseYMD at hp
  cases h1 : AppointmentExecutor.take4Digits l with
  | none => rw [h1] at hp; exact absurd hp (by simp)
  | some p1 =>
    obtain ⟨y, l1⟩ := p1
    rw [h1] at hp
    simp only [Option.bind_eq_bind, Option.some_bind] at hp
    cases h2 : AppointmentExecutor.expectChar '-' l1 with
    | none => rw [h2] at hp; exact absurd hp (by simp)
    | some l2 =>
      rw [h2] at hp
      simp only [Option.some_bind] at hp
      cases h3 : AppointmentExecutor.takeRangedNum 12 l2 with
      | none => rw [h3] at hp; exact absurd hp (by simp)
      | some p3 =>
        obtain ⟨m, l3⟩ := p3
        rw [h3] at hp
        simp only [Option.some_bind] at hp
        cases h4 : AppointmentExecutor.expectChar '-' l3 with
        | none => rw [h4] at hp; exact absurd hp (by simp)
        | some l4 =>
          rw [h4] at hp
          simp only [Option.some_bind] at hp
          cases h5 : AppointmentExecutor.takeRangedNum 31 l4 with
          | none => rw [h5] at hp; exact absurd hp (by simp)
          | some p5 =>
            obtain ⟨dd, l5⟩ := p5
            rw [h5] at hp
            simp only [Option.some_bind] at hp
            split at hp
            · simp only [Option.some.injEq] at hp
              have hm := takeRangedNum_le 12 (by omega) l2 m l3 h3
              have hd := takeRangedNum_le 31 (by omega) l4 dd l5 h5
              rw [← hp]
              constructor
              · show m ≤ 12
                omega
              · show dd ≤ 31
                omega
            · exact absurd hp (by simp)

theorem parseDMY_bounds (sep : Char) (l : List Char) (d : PyDate)
    (hp : AppointmentExecutor.parseDMY sep l = some d) : d.month ≤ 12 ∧ d.day ≤ 31 := by
  unfold AppointmentExecutor.parseDMY at hp
  cases h1 : AppointmentExecutor.takeRangedNum 31 l with
  | none => rw [h1] at hp; exact absurd hp (by simp)
  | some p1 =>
    obtain ⟨dd, l1⟩ := p1
    rw [h1] at hp
    simp only [Option.bind_eq_bind, Option.some_bind] at hp
    cases h2 : AppointmentExecutor.expectChar sep l1 with
    | none => rw [h2] at hp; exact absurd hp (by simp)
    | some l2 =>
      rw [h2] at hp
      simp only [Option.some_bind] at hp
      cases h3 : AppointmentExecutor.takeRangedNum 12 l2 with
      | none => rw [h3] at hp; exact absurd hp (by simp)
      | some p3 =>
        obtain ⟨m, l3⟩ := p3
        rw [h3] at hp
        simp only [Option.some_bind] at hp
        cases h4 : AppointmentExecutor.expectChar sep l3 with
        | none => rw [h4] at hp; exact absurd hp (by simp)
        | some l4 =>
          rw [h4] at hp
          simp only [Option.some_bind] at hp
          cases h5 : AppointmentExecutor.take4Digits l4 with
          | none => rw [h5] at hp; exact absurd hp (by simp)
          | some p5 =>
            obtain ⟨y, l5⟩ := p5
            rw [h5] at hp
            simp only [Option.some_bind] at hp
            split at hp
            · simp only [Option.some.injEq] at hp
              have hm := takeRangedNum_le 12 (by omega) l2 m l3 h3
              have hd := takeRangedNum_le 31 (by omega) l dd l1 h1
              rw [← hp]
              constructor
              · show m ≤ 12
                omega
              · show dd ≤ 31
                omega
            · exact absurd hp (by simp)

theorem parseDBY_bounds (names : List (String × Nat))
    (hn : ∀ p ∈ names, 1 ≤ p.2 ∧ p.2 ≤ 12) (l : List Char) (d : PyDate)
    (hp : AppointmentExecutor.parseDBY names l = some d) : d.month ≤ 12 ∧ d.day ≤ 31 := by
  unfold AppointmentExecutor.parseDBY at hp
  cases h1 : AppointmentExecutor.takeRangedNum 31 l with
  | none => rw [h1] at hp; exact absurd hp (by simp)
  | some p1 =>
    obtain ⟨dd, l1⟩ := p1
    rw [h1] at hp
    simp only [Option.bind_eq_bind, Option.some_bind] at hp
    cases h2 : AppointmentExecutor.spaces1 l1 with
    | none => rw [h2] at hp; exact absurd hp (by simp)
    | some l2 =>
      rw [h2] at hp
      simp only [Option.some_bind] at hp
      cases h3 : AppointmentExecutor.matchMonthName names l2 with
      | none => rw [h3] at hp; exact absurd hp (by simp)
      | some p3 =>
        obtain ⟨m, l3⟩ := p3
        rw [h3] at hp
        simp only [Option.some_bind] at hp
        cases h4 : AppointmentExecutor.spaces1 l3 with
        | none => rw [h4] at hp; exact absurd hp (by simp)
        | some l4 =>
          rw [h4] at hp
          simp only [Option.some_bind] at hp
          cases h5 : AppointmentExecutor.take4Digits l4 with
          | none => rw [h5] at hp; exact absurd hp (by simp)
          | some p5 =>
            obtain ⟨y, l5⟩ := p5
            rw [h5] at hp
            simp only [Option.some_bind] at hp
            split at hp
            · simp only [Option.some.injEq] at hp
              have hm := matchMonthName_le names hn l2 m l3 h3
              have hd := takeRangedNum_le 31 (by omega) l dd l1 h1
              rw [← hp]
              constructor
              · show m ≤ 12
                omega
              · show dd ≤ 31
                omega
            · exact absurd hp (by simp)

theorem tryFormats_bounds (l : List Char) (d : PyDate)
    (hp : AppointmentExecutor.tryFormats l = some d) : d.month ≤ 12 ∧ d.day ≤ 31 := by
  unfold AppointmentExecutor.tryFormats at hp
  rcases (Option.orElse_eq_some _ _ _).mp hp with h | ⟨-, h⟩
  · exact parseYMD_bounds l d h
  · rcases (Option.orElse_eq_some _ _ _).mp h with h2 | ⟨-, h2⟩
    · exact parseDMY_bounds '/' l d h2
    · rcases (Option.orElse_eq_some _ _ _).mp h2 with h3 | ⟨-, h3⟩
      · exact parseDMY_bounds '-' l d h3
      · rcases (Option.orElse_eq_some _ _ _).mp h3 with h4 | ⟨-, h4⟩
        · exact parseDBY_bounds AppointmentExecutor.monthFullNames (by decide) l d h4
        · exact parseDBY_bounds AppointmentExecutor.monthAbbrNames (by decide) l d h4

theorem dateCore_bounds (today : Today) (dateutil : String → Option PyDate) (s : String)
    (htm : today.date.month ≤ 12) (htd : today.date.day ≤ 31)
    (hdu : ∀ t d, dateutil t = some d → d.month ≤ 12 ∧ d.day ≤ 31)
    (d : PyDate) (hp : AppointmentExecutor.dateCore today dateutil s = some d) :
    d.month ≤ 12 ∧ d.day ≤ 31 := by
  unfold AppointmentExecutor.dateCore at hp
  by_cases h1 : strContainsS (pyLowerStrip s) "today" = true
  · simp only [h1, if_true] at hp
    cases hp
    exact ⟨htm, htd⟩
  · simp only [h1, Bool.false_eq_true, if_false] at hp
    by_cases h2 : strContainsS (pyLowerStrip s) "tomorrow" = true
    · simp only [h2, if_true] at hp
      cases hp
      exact addDays_bounds today.date 1 htm htd
    · simp only [h2, Bool.false_eq_true, if_false] at hp
      cases h3 : AppointmentExecutor.findDayName (pyLowerStrip s) with
      | some dn =>
          rw [h3] at hp
          cases hp
          exact addDays_bounds today.date _ htm htd
      | none =>
          rw [h3] at hp
          cases h4 : dateutil s with
          | some d2 =>
              rw [h4] at hp
              injection hp with hq
              rw [← hq]
              exact hdu s d2 h4
          | none =>
              rw [h4] at hp
              exact tryFormats_bounds _ d hp

/-! ## C3 — date / time parser canonical output -/

/-- Counterexample for C3: the input `"99pm"` IS recognized by the
12-hour branch of `parse_time_str` (it matches
`^(\d{1,2})(?::(\d{2}))?\s*(am|pm)$`), the `pm` rule adds 12 to the
hour, and Python's `f"\x7bh:02d\x7d"` does not truncate — the output is
`"111:00"`, which is not a canonical zero-padded `HH:MM` string. -/
theorem c3_counterexample :
    AppointmentExecutor.timeRecognized "99pm" = true ∧
    AppointmentExecutor.parse_time_str "99pm" = some "111:00" ∧
    isCanonicalHM "111:00" = false := by
  refine ⟨by decide, by decide, by decide⟩

theorem timeCore_match24_eq (t : String) (h0 m0 : Nat)
    (h24 : AppointmentExecutor.match24 t.data = some (h0, m0)) :
    AppointmentExecutor.timeCore t = some (fmtHM h0 m0) := by
  unfold AppointmentExecutor.timeCore
  rw [h24]

theorem timeCore_match12_eq (t : String) (h0 m0 : Nat) (ap : AppointmentExecutor.AmPm)
    (h24 : AppointmentExecutor.match24 t.data = none)
    (h12 : AppointmentExecutor.match12 t.data = some (h0, m0, ap)) :
    AppointmentExecutor.timeCore t =
      some (fmtHM
        (if ap = AppointmentExecutor.AmPm.pm && h0 ≠ 12 then h0 + 12
         else if ap = AppointmentExecutor.AmPm.am && h0 = 12 then 0 else h0) m0) := by
  unfold AppointmentExecutor.timeCore
  rw [h24, h12]

theorem parse_time_str_of_core (s : String) (out : String) (hs : s ≠ "")
    (hc : AppointmentExecutor.timeCore (pyLowerStrip s) = some out) :
    AppointmentExecutor.parse_time_str s = some out := by
  unfold AppointmentExecutor.parse_time_str
  rw [if_neg hs, hc]

/-- C3 (amended): for every input recognized by `parse_date_str` the
output is a canonical `YYYY-MM-DD` string; for every input recognized
by `parse_time_str` the output is `hour ":" minute` with the minute two
digits and the hour zero-padded to at least two digits — canonical
`HH:MM` whenever the computed hour value is below 100 (nonsense inputs
such as `"99pm"` can push it to three digits); every non-empty
unrecognized input is returned unchanged by both parsers; `"3pm"`
yields `"15:00"`; and `"next Thursday"` parsed on a Monday yields the
date 3 days after today.  (`dateutil` is the external
`dateutil.parser.parse` oracle; its outputs are Python `datetime`
values, so their month/day fields are in range.) -/
theorem c3_parsers_amended (today : Today) (dateutil : String → Option PyDate)
    (htm : today.date.month ≤ 12) (htd : today.date.day ≤ 31)
    (hdu : ∀ t d, dateutil t = some d → d.month ≤ 12 ∧ d.day ≤ 31) :
    (∀ s, AppointmentExecutor.dateRecognized today dateutil s = true →
      ∃ out, AppointmentExecutor.parse_date_str today dateutil s = some out ∧
        isCanonicalYMD out = true) ∧
    (∀ s, s ≠ "" → AppointmentExecutor.dateRecognized today dateutil s = false →
      AppointmentExecutor.parse_date_str today dateutil s = some s) ∧
    (∀ s, AppointmentExecutor.timeRecognized s = true →
      ∃ h m, AppointmentExecutor.parse_time_str s = some (fmtHM h m) ∧ m ≤ 99 ∧
        (h < 100 → isCanonicalHM (fmtHM h m) = true)) ∧
    (∀ s, s ≠ "" → AppointmentExecutor.timeRecognized s = false →
      AppointmentExecutor.parse_time_str s = some s) ∧
    AppointmentExecutor.parse_time_str "3pm" = some "15:00" ∧
    (today.weekday.val = 0 →
      AppointmentExecutor.parse_date_str today dateutil "next Thursday" =
        some (fmtYMD (addDays today.date 3))) := by
  refine ⟨?_, ?_, ?_, ?_, by decide, ?_⟩
  · intro s hrec
    unfold AppointmentExecutor.dateRecognized at hrec
    simp only [Bool.and_eq_true, decide_eq_true_eq, ne_eq] at hrec
    obtain ⟨hs, hsome⟩ := hrec
    obtain ⟨d, hd⟩ := Option.isSome_iff_exists.mp hsome
    refine ⟨fmtYMD d, ?_, ?_⟩
    · unfold AppointmentExecutor.parse_date_str
      rw [if_neg hs, hd]
    · have hb := dateCore_bounds today dateutil s htm htd hdu d hd
      exact isCanonicalYMD_fmtYMD d (by omega) (by omega)
  · intro s hs hrec
    unfold AppointmentExecutor.dateRecognized at hrec
    simp only [Bool.and_eq_false_iff] at hrec
    cases hcore : AppointmentExecutor.dateCore today dateutil s with
    | some d =>
        exfalso
        rcases hrec with h | h
        · simp [hs] at h
        · rw [hcore] at h
          simp at h
    | none =>
        unfold AppointmentExecutor.parse_date_str
        rw [if_neg hs, hcore]
  · intro s hrec
    unfold AppointmentExecutor.timeRecognized at hrec
    simp only [Bool.and_eq_true, decide_eq_true_eq, ne_eq] at hrec
    obtain ⟨hs, hsome⟩ := hrec
    cases h24 : AppointmentExecutor.match24 (pyLowerStrip s).data with
    | some p =>
        obtain ⟨h0, m0⟩ := p
        have hb := match24_bounds _ h0 m0 h24
        exact ⟨h0, m0, parse_time_str_of_core s _ hs (timeCore_match24_eq _ h0 m0 h24),
          hb.2, fun _ => isCanonicalHM_fmtHM h0 m0 (by omega) (by omega)⟩
    | none =>
        cases h12 : AppointmentExecutor.match12 (pyLowerStrip s).data with
        | some q =>
            obtain ⟨h0, m0, ap⟩ := q
            have hb := match12_bounds _ h0 m0 ap h12
            exact ⟨_, m0, parse_time_str_of_core s _ hs
              (timeCore_match12_eq _ h0 m0 ap h24 h12),
              hb.2, fun hlt => isCanonicalHM_fmtHM _ m0 hlt (by omega)⟩
        | none =>
            unfold AppointmentExecutor.timeCore at hsome
            rw [h24, h12] at hsome
            by_cases hw1 : strContainsS (pyLowerStrip s) "morning" = true
            · refine ⟨9, 0, parse_time_str_of_core s _ hs ?_, by omega, fun _ => by decide⟩
              unfold AppointmentExecutor.timeCore
              rw [h24, h12, if_pos hw1]
              rfl
            · by_cases hw2 : strContainsS (pyLowerStrip s) "afternoon" = true
              · refine ⟨14, 0, parse_time_str_of_core s _ hs ?_, by omega, fun _ => by decide⟩
                unfold AppointmentExecutor.timeCore
                rw [h24, h12, if_neg (by simpa using hw1), if_pos hw2]
                rfl
              · by_cases hw3 : strContainsS (pyLowerStrip s) "evening" = true
                · refine ⟨17, 0, parse_time_str_of_core s _ hs ?_, by omega, fun _ => by decide⟩
                  unfold AppointmentExecutor.timeCore
                  rw [h24, h12, if_neg (by simpa using hw1), if_neg (by simpa using hw2),
                    if_pos hw3]
                  rfl
                · rw [if_neg (by simpa using hw1), if_neg (by simpa using hw2),
                    if_neg (by simpa using hw3)] at hsome
                  simp at hsome
  · intro s hs hrec
    unfold AppointmentExecutor.timeRecognized at hrec
    simp only [Bool.and_eq_false_iff] at hrec
    cases hcore : AppointmentExecutor.timeCore (pyLowerStrip s) with
    | some out =>
        exfalso
        rcases hrec with h | h
        · simp [hs] at h
        · rw [hcore] at h
          simp at h
    | none =>
        unfold AppointmentExecutor.parse_time_str
        rw [if_neg hs, hcore]
  · intro hw
    unfold AppointmentExecutor.parse_date_str AppointmentExecutor.dateCore
    rw [if_neg (by decide : ¬("next Thursday" = ""))]
    simp only [show strContainsS (pyLowerStrip "next Thursday") "today" = false from by decide,
      show strContainsS (pyLowerStrip "next Thursday") "tomorrow" = false from by decide,
      show AppointmentExecutor.findDayName (pyLowerStrip "next Thursday") = some 3 from
        by decide,
      Bool.false_eq_true, if_false]
    rw [hw]
    rfl

/-- Witness for C3 (amended), with today = Monday 2026-10-12 and a
`dateutil` oracle that recognizes nothing: a recognized date input
yields a canonical string, unrecognized inputs come back unchanged,
`"3pm"` gives `"15:00"`, a recognized time input has the stated shape,
and `"next Thursday"` gives 2026-10-15. -/
theorem c3_parsers_witness :
    (∃ out, AppointmentExecutor.parse_date_str ⟨⟨2026, 10, 12⟩, 0⟩ (fun _ => none)
      "tomorrow" = some out ∧ isCanonicalYMD out = true) ∧
    AppointmentExecutor.parse_date_str ⟨⟨2026, 10, 12⟩, 0⟩ (fun _ => none) "gibberish" =
      some "gibberish" ∧
    (∃ h m, AppointmentExecutor.parse_time_str "11:30 am" = some (fmtHM h m) ∧ m ≤ 99 ∧
      (h < 100 → isCanonicalHM (fmtHM h m) = true)) ∧
    AppointmentExecutor.parse_time_str "sometime" = some "sometime" ∧
    AppointmentExecutor.parse_time_str "3pm" = some "15:00" ∧
    AppointmentExecutor.parse_date_str ⟨⟨2026, 10, 12⟩, 0⟩ (fun _ => none) "next Thursday" =
      some (fmtYMD (addDays ⟨2026, 10, 12⟩ 3)) := by
  have h := c3_parsers_amended ⟨⟨2026, 10, 12⟩, 0⟩ (fun _ => none)
    (by decide) (by decide) (fun t d hc => absurd hc (by simp))
  exact ⟨h.1 "tomorrow" (by decide),
         h.2.1 "gibberish" (by decide) (by decide),
         h.2.2.1 "11:30 am" (by decide),
         h.2.2.2.1 "sometime" (by decide) (by decide),
         h.2.2.2.2.1,
         h.2.2.2.2.2 rfl⟩

/-! ## Lemmas for C10 -/

theorem strContainsL_append_left (n pre l3 : List Char)
    (h : listPrefixOf n l3 = true) : strContainsL n (pre ++ l3) = true := by
  induction pre with
  | nil =>
      cases l3 with
      | nil => simpa [strContainsL] using h
      | cons c t => simp [strContainsL, h]
  | cons c t ih => simp [strContainsL, ih]

theorem strContainsL_of_suffix (n l3 l : List Char) (hs : l3 <:+ l)
    (h : listPrefixOf n l3 = true) : strContainsL n l = true := by
  obtain ⟨pre, hpre⟩ := hs
  rw [← hpre]
  exact strContainsL_append_left n pre l3 h

theorem take2Digits_suffix (l : List Char) (v : Nat) (r : List Char)
    (hp : take2Digits l = some (v, r)) : r <:+ l := by
  rcases l with _ | ⟨c, t⟩
  · simp [take2Digits] at hp
  · rcases t with _ | ⟨c2, t2⟩
    · simp only [take2Digits] at hp
      split at hp
      · simp only [Option.some.injEq, Prod.mk.injEq] at hp
        rw [← hp.2]
        exact ⟨[c], rfl⟩
      · exact absurd hp (by simp)
    · simp only [take2Digits] at hp
      split at hp
      · split at hp
        · simp only [Option.some.injEq, Prod.mk.injEq] at hp
          rw [← hp.2]
          exact ⟨[c, c2], rfl⟩
        · simp only [Option.some.injEq, Prod.mk.injEq] at hp
          rw [← hp.2]
          exact ⟨[c], rfl⟩
      · exact absurd hp (by simp)

theorem minutesStep_suffix (l1 : List Char) : (DateTimeUtils.minutesStep l1).2 <:+ l1 := by
  rcases l1 with _ | ⟨a, _ | ⟨c1, _ | ⟨c2, rest⟩⟩⟩
  · exact List.suffix_refl _
  · exact List.suffix_refl _
  · exact List.suffix_refl _
  · unfold DateTimeUtils.minutesStep
    by_cases hcond : (a = ':' && c1.isDigit && c2.isDigit) = true
    · simp only [hcond, if_true]
      exact ⟨[a, c1, c2], rfl⟩
    · simp only [hcond, Bool.false_eq_true, if_false]
      exact List.suffix_refl _

theorem searchHere_am (l : List Char) (h m : Nat)
    (hp : DateTimeUtils.searchHere l = (h, m, some DateTimeUtils.Period.am)) :
    strContainsL ['a', 'm'] l = true := by
  unfold DateTimeUtils.searchHere at hp
  cases h2 : take2Digits l with
  | none =>
      rw [h2] at hp
      simp at hp
  | some p =>
      obtain ⟨h0, l1⟩ := p
      have hsuf1 : l1 <:+ l := take2Digits_suffix l h0 l1 h2
      rw [h2] at hp
      simp only at hp
      have hg := congrArg (fun q : Nat × Nat × Option DateTimeUtils.Period => q.2.2) hp
      simp only at hg
      by_cases hpre :
          listPrefixOf ['a', 'm'] ((DateTimeUtils.minutesStep l1).2.dropWhile pyIsSpace) = true
      · exact strContainsL_of_suffix _ _ l
          ((List.dropWhile_suffix pyIsSpace).trans ((minutesStep_suffix l1).trans hsuf1)) hpre
      · rw [if_neg hpre] at hg
        split at hg <;> simp at hg

theorem timeSearch_am (l : List Char) (h m : Nat)
    (hp : DateTimeUtils.timeSearch l = some (h, m, some DateTimeUtils.Period.am)) :
    strContainsL ['a', 'm'] l = true := by
  induction l with
  | nil => simp [DateTimeUtils.timeSearch] at hp
  | cons c t ih =>
      unfold DateTimeUtils.timeSearch at hp
      by_cases hc : c.isDigit = true
      · rw [if_pos hc] at hp
        simp only [Option.some.injEq] at hp
        exact searchHere_am (c :: t) h m hp
      · rw [if_neg hc] at hp
        have := ih hp
        simp [strContainsL, this]

theorem parse_time_guard_inv (hv m0 h m : Nat)
    (hp : (if hv ≤ 23 && m0 ≤ 59 then some (hv, m0) else (none : Option (Nat × Nat))) =
      some (h, m)) : h = hv ∧ m = m0 := by
  split at hp
  · simp only [Option.some.injEq, Prod.mk.injEq] at hp
    exact ⟨hp.1.symm, hp.2.symm⟩
  · exact absurd hp (by simp)

/-! ## C10 — implicit PM assumption in `parse_time` -/

/-- C10: in `date_time_utils.parse_time`, a bare hour (regex group 3
absent) with no period word is shifted by +12 when it is 1..8 (so
`"6"` parses as 18:00) while bare hours 9..12 are returned unshifted;
consequently a parsed result whose hour lies in 1:00-8:59 can only
arise from an input containing "am" or "morning". -/
theorem c10_implicit_pm (s : String) :
    (∀ h m, s ≠ "" →
      DateTimeUtils.timeSearch (pyLowerStrip s).data = some (h, m, none) →
      DateTimeUtils.periodHint (pyLowerStrip s) = none →
      m ≤ 59 →
      ((1 ≤ h → h ≤ 8 → DateTimeUtils.parse_time s = some (h + 12, m)) ∧
       (9 ≤ h → h ≤ 12 → DateTimeUtils.parse_time s = some (h, m)))) ∧
    DateTimeUtils.parse_time "6" = some (18, 0) ∧
    (∀ h m, DateTimeUtils.parse_time s = some (h, m) → 1 ≤ h → h ≤ 8 →
      strContainsS (pyLowerStrip s) "am" = true ∨
      strContainsS (pyLowerStrip s) "morning" = true) := by
  refine ⟨?_, by decide, ?_⟩
  · intro h m hs hsearch hhint hm
    constructor
    · intro h1 h8
      have hlt : h < 9 := by omega
      have hle : h + 12 ≤ 23 := by omega
      unfold DateTimeUtils.parse_time
      rw [if_neg hs]
      simp only [hsearch, hhint]
      simp [hlt, hle, hm]
    · intro h9 h12
      have hge : ¬(h < 9) := by omega
      have hle : h ≤ 23 := by omega
      unfold DateTimeUtils.parse_time
      rw [if_neg hs]
      simp only [hsearch, hhint]
      simp [hge, hle, hm]
  · intro h m hp h1 h8
    by_cases hs0 : s = ""
    · rw [hs0] at hp
      simp [DateTimeUtils.parse_time] at hp
    · unfold DateTimeUtils.parse_time at hp
      rw [if_neg hs0] at hp
      cases hsearch : DateTimeUtils.timeSearch (pyLowerStrip s).data with
      | none =>
          simp only [hsearch] at hp
          exact absurd hp (by simp)
      | some t =>
          obtain ⟨h0, m0, g3⟩ := t
          simp only [hsearch] at hp
          cases g3 with
          | some p =>
              cases p with
              | am =>
                  left
                  have hc := timeSearch_am _ h0 m0 hsearch
                  show strContainsL "am".data (pyLowerStrip s).data = true
                  rw [show "am".data = ['a', 'm'] from rfl]
                  exact hc
              | pm =>
                  exfalso
                  simp only at hp
                  have hinv := parse_time_guard_inv _ _ _ _ hp
                  rw [hinv.1] at h8
                  simp at h8
                  split at h8 <;> omega
          | none =>
              cases hhint : DateTimeUtils.periodHint (pyLowerStrip s) with
              | some p =>
                  cases p with
                  | am =>
                      right
                      unfold DateTimeUtils.periodHint at hhint
                      by_cases hw : strContainsS (pyLowerStrip s) "morning" = true
                      · exact hw
                      · rw [if_neg hw] at hhint
                        split at hhint <;> simp at hhint
                  | pm =>
                      exfalso
                      simp only [hhint] at hp
                      have hinv := parse_time_guard_inv _ _ _ _ hp
                      rw [hinv.1] at h8
                      simp at h8
                      split at h8 <;> omega
              | none =>
                  exfalso
                  simp only [hhint] at hp
                  have hinv := parse_time_guard_inv _ _ _ _ hp
                  rw [hinv.1] at h8
                  simp at h8
                  split at h8 <;> omega

/-- Witness for C10: `"6:30"` (bare hour 6) parses as 18:30; `"10"`
stays 10:00; `"6"` parses as 18:00; and a result with hour 7 (from
`"7am"`) indeed comes from an input containing "am". -/
theorem c10_implicit_pm_witness :
    DateTimeUtils.parse_time "6:30" = some (18, 30) ∧
    DateTimeUtils.parse_time "10" = some (10, 0) ∧
    DateTimeUtils.parse_time "6" = some (18, 0) ∧
    (strContainsS (pyLowerStrip "7am") "am" = true ∨
     strContainsS (pyLowerStrip "7am") "morning" = true) := by
  refine ⟨((c10_implicit_pm "6:30").1 6 30 (by decide) (by decide) (by decide)
            (by omega)).1 (by omega) (by omega),
          ((c10_implicit_pm "10").1 10 0 (by decide) (by decide) (by decide)
            (by omega)).2 (by omega) (by omega),
          (c10_implicit_pm "6").2.1,
          (c10_implicit_pm "7am").2.2 7 0 (by decide) (by omega) (by omega)⟩
